import Mathlib

/-!
# whatsmeow media retry receipts and notifications

A shallow embedding of `mediaretry.go`:

* `getMediaRetryKey`, `prepareMediaRetryGCM`, `encryptMediaRetryReceipt`,
  `Client.SendMediaRetryReceipt`, `DecryptMediaRetryNotification`,
  `parseMediaRetryNotification` and `Client.handleMediaRetryNotification`
  are translated from the Go source.
* The cryptographic primitives the source calls (SHA-256, HMAC, HKDF, AES and GCM)
  are executable models of the published algorithms, with the Go library's
  argument checks (errors and panics) made explicit.
* The binary node helpers (`Node`, `AttrUtility`) are not part of the translated
  file; they are modelled and marked as such.

Go byte slices are lists of naturals, a Go `(value, error)` result is a pair of
options or an `Except`, and a Go panic is the `Outcome.panicked` constructor.
-/

namespace whatsmeow

/-! ## Go values -/

/-- A Go byte slice; a nil slice is the empty list. -/
abbrev Bytes := List Nat

/-- The bytes of a Go string (`[]byte(s)`), here its UTF-8 encoding. -/
def stringBytes (s : String) : Bytes :=
  s.data.flatMap fun c => (String.utf8EncodeChar c).map UInt8.toNat

/-- Value of `ElementMissingError`: the tag that was required and where. -/
structure ElementMissingError where
  Tag : String
  In : String
deriving DecidableEq, Repr

/-- Go `error` values that occur in the media retry code. -/
inductive GoErr where
  | msg (text : String)
  | wrap (text : String) (inner : GoErr)
  | attrMissing (key : String)
  | attrMalformed (key : String)
  | elementMissing (e : ElementMissingError)
deriving DecidableEq, Repr

/-- Result of `fmt.Errorf(text + ": %w", err)`; it is never nil, whatever `err` is. -/
def Errorf (text : String) (err : Option GoErr) : GoErr :=
  match err with
  | some e => GoErr.wrap text e
  | none => GoErr.msg (text ++ ": %!w(<nil>)")

/-- How a Go call ends: it returns a value to its caller, or it panics. -/
inductive Outcome (α : Type) where
  | returned (v : α)
  | panicked (cause : GoErr)
deriving DecidableEq, Repr

/-- Big-endian value of a byte string. -/
def beNat (bs : Bytes) : Nat :=
  bs.foldl (fun acc b => acc * 256 + b % 256) 0

/-- Big-endian encoding of `n` (modulo `256 ^ len`) on `len` bytes. -/
def beBytes (len n : Nat) : Bytes :=
  (List.range len).map fun i => (n >>> (8 * (len - 1 - i))) % 256

/-- Bytewise exclusive or, as long as the shorter argument. -/
def xorBytes (a b : Bytes) : Bytes :=
  List.zipWith (fun x y => x ^^^ y) a b

/-! ## SHA-256, HMAC and HKDF (`crypto/sha256`, `crypto/hmac`, `x/crypto/hkdf`) -/

/-- Round constants of SHA-256 (FIPS 180-4, section 4.2.2). -/
def sha256K : List Nat := [
  0x428a2f98, 0x71374491, 0xb5c0fbcf, 0xe9b5dba5, 0x3956c25b, 0x59f111f1, 0x923f82a4, 0xab1c5ed5,
  0xd807aa98, 0x12835b01, 0x243185be, 0x550c7dc3, 0x72be5d74, 0x80deb1fe, 0x9bdc06a7, 0xc19bf174,
  0xe49b69c1, 0xefbe4786, 0x0fc19dc6, 0x240ca1cc, 0x2de92c6f, 0x4a7484aa, 0x5cb0a9dc, 0x76f988da,
  0x983e5152, 0xa831c66d, 0xb00327c8, 0xbf597fc7, 0xc6e00bf3, 0xd5a79147, 0x06ca6351, 0x14292967,
  0x27b70a85, 0x2e1b2138, 0x4d2c6dfc, 0x53380d13, 0x650a7354, 0x766a0abb, 0x81c2c92e, 0x92722c85,
  0xa2bfe8a1, 0xa81a664b, 0xc24b8b70, 0xc76c51a3, 0xd192e819, 0xd6990624, 0xf40e3585, 0x106aa070,
  0x19a4c116, 0x1e376c08, 0x2748774c, 0x34b0bcb5, 0x391c0cb3, 0x4ed8aa4a, 0x5b9cca4f, 0x682e6ff3,
  0x748f82ee, 0x78a5636f, 0x84c87814, 0x8cc70208, 0x90befffa, 0xa4506ceb, 0xbef9a3f7, 0xc67178f2]

/-- The eight 32-bit working words of SHA-256. -/
structure SHA256State where
  a : Nat
  b : Nat
  c : Nat
  d : Nat
  e : Nat
  f : Nat
  g : Nat
  h : Nat

/-- Initial hash value of SHA-256. -/
def sha256Init : SHA256State :=
  ⟨0x6a09e667, 0xbb67ae85, 0x3c6ef372, 0xa54ff53a, 0x510e527f, 0x9b05688c, 0x1f83d9ab, 0x5be0cd19⟩

/-- Rotation to the right of a 32-bit word. -/
def rotr32 (x n : Nat) : Nat :=
  ((x >>> n) ||| (x <<< (32 - n))) % 2 ^ 32

/-- Message padding of SHA-256: a one bit, zeros, and the bit length on 8 bytes. -/
def sha256Pad (m : Bytes) : Bytes :=
  m.map (fun b => b % 256) ++ [0x80] ++ List.replicate ((119 - m.length % 64) % 64) 0
    ++ beBytes 8 (8 * m.length)

/-- Extends the message schedule by `n` words. -/
def sha256Schedule : Nat → List Nat → List Nat
  | 0, w => w
  | n + 1, w =>
    let i := w.length
    let w15 := w.getD (i - 15) 0
    let w2 := w.getD (i - 2) 0
    let s0 := rotr32 w15 7 ^^^ rotr32 w15 18 ^^^ (w15 >>> 3)
    let s1 := rotr32 w2 17 ^^^ rotr32 w2 19 ^^^ (w2 >>> 10)
    sha256Schedule n (w ++ [(w.getD (i - 16) 0 + s0 + w.getD (i - 7) 0 + s1) % 2 ^ 32])

/-- One round of the SHA-256 compression function. -/
def sha256Round (s : SHA256State) (k w : Nat) : SHA256State :=
  let s1 := rotr32 s.e 6 ^^^ rotr32 s.e 11 ^^^ rotr32 s.e 25
  let ch := (s.e &&& s.f) ^^^ ((s.e ^^^ 0xffffffff) &&& s.g)
  let t1 := (s.h + s1 + ch + k + w) % 2 ^ 32
  let s0 := rotr32 s.a 2 ^^^ rotr32 s.a 13 ^^^ rotr32 s.a 22
  let maj := (s.a &&& s.b) ^^^ (s.a &&& s.c) ^^^ (s.b &&& s.c)
  let t2 := (s0 + maj) % 2 ^ 32
  ⟨(t1 + t2) % 2 ^ 32, s.a, s.b, s.c, (s.d + t1) % 2 ^ 32, s.e, s.f, s.g⟩

/-- Compression of one 64-byte block into the state. -/
def sha256Block (s : SHA256State) (block : Bytes) : SHA256State :=
  let w := sha256Schedule 48 ((List.range 16).map fun i => beNat ((block.drop (4 * i)).take 4))
  let r := (List.range 64).foldl (fun st i => sha256Round st (sha256K.getD i 0) (w.getD i 0)) s
  ⟨(s.a + r.a) % 2 ^ 32, (s.b + r.b) % 2 ^ 32, (s.c + r.c) % 2 ^ 32, (s.d + r.d) % 2 ^ 32,
   (s.e + r.e) % 2 ^ 32, (s.f + r.f) % 2 ^ 32, (s.g + r.g) % 2 ^ 32, (s.h + r.h) % 2 ^ 32⟩

/-- SHA-256 digest (32 bytes) of a message. -/
def sha256 (m : Bytes) : Bytes :=
  let padded := sha256Pad m
  let s := (List.range (padded.length / 64)).foldl
    (fun st i => sha256Block st ((padded.drop (64 * i)).take 64)) sha256Init
  beBytes 4 s.a ++ beBytes 4 s.b ++ beBytes 4 s.c ++ beBytes 4 s.d
    ++ beBytes 4 s.e ++ beBytes 4 s.f ++ beBytes 4 s.g ++ beBytes 4 s.h

/-- HMAC with SHA-256 (RFC 2104). -/
def hmacSHA256 (key m : Bytes) : Bytes :=
  let k0 := if key.length > 64 then sha256 key else key
  let k := k0 ++ List.replicate (64 - k0.length) 0
  sha256 (k.map (fun b => b ^^^ 0x5c) ++ sha256 (k.map (fun b => b ^^^ 0x36) ++ m))

/-- HKDF-Expand: `n` output blocks `T(i), T(i+1), ...` after the block `prev`. -/
def hkdfExpandBlocks (prk info : Bytes) : Nat → Bytes → Nat → Bytes
  | 0, _, _ => []
  | n + 1, prev, i =>
    let t := hmacSHA256 prk (prev ++ info ++ [i % 256])
    t ++ hkdfExpandBlocks prk info n t (i + 1)

/-- HKDF with SHA-256 (RFC 5869): extract with `salt` (zeros when it is absent),
then expand with `info` to `length` bytes. -/
def hkdfSHA256 (secret salt info : Bytes) (length : Nat) : Bytes :=
  let prk := hmacSHA256 (if salt.isEmpty then List.replicate 32 0 else salt) secret
  (hkdfExpandBlocks prk info ((length + 31) / 32) [] 1).take length

/-- Modelled from the spec: `hkdfutil.SHA256(key, salt, info, length)`, which is not among
the translated sources: "an HMAC-based extract-and-expand key derivation using SHA-256 ...
producing exactly 32 output bytes", with "no error path". The length is a `uint8`. -/
def hkdfutil.SHA256 (key salt info : Bytes) (length : Nat) : Bytes :=
  hkdfSHA256 key salt info (length % 256)

/-! ## AES (`crypto/aes`) -/

/-- Substitution table of AES (FIPS 197, figure 7). -/
def sbox : List Nat := [
  0x63, 0x7c, 0x77, 0x7b, 0xf2, 0x6b, 0x6f, 0xc5, 0x30, 0x01, 0x67, 0x2b, 0xfe, 0xd7, 0xab, 0x76,
  0xca, 0x82, 0xc9, 0x7d, 0xfa, 0x59, 0x47, 0xf0, 0xad, 0xd4, 0xa2, 0xaf, 0x9c, 0xa4, 0x72, 0xc0,
  0xb7, 0xfd, 0x93, 0x26, 0x36, 0x3f, 0xf7, 0xcc, 0x34, 0xa5, 0xe5, 0xf1, 0x71, 0xd8, 0x31, 0x15,
  0x04, 0xc7, 0x23, 0xc3, 0x18, 0x96, 0x05, 0x9a, 0x07, 0x12, 0x80, 0xe2, 0xeb, 0x27, 0xb2, 0x75,
  0x09, 0x83, 0x2c, 0x1a, 0x1b, 0x6e, 0x5a, 0xa0, 0x52, 0x3b, 0xd6, 0xb3, 0x29, 0xe3, 0x2f, 0x84,
  0x53, 0xd1, 0x00, 0xed, 0x20, 0xfc, 0xb1, 0x5b, 0x6a, 0xcb, 0xbe, 0x39, 0x4a, 0x4c, 0x58, 0xcf,
  0xd0, 0xef, 0xaa, 0xfb, 0x43, 0x4d, 0x33, 0x85, 0x45, 0xf9, 0x02, 0x7f, 0x50, 0x3c, 0x9f, 0xa8,
  0x51, 0xa3, 0x40, 0x8f, 0x92, 0x9d, 0x38, 0xf5, 0xbc, 0xb6, 0xda, 0x21, 0x10, 0xff, 0xf3, 0xd2,
  0xcd, 0x0c, 0x13, 0xec, 0x5f, 0x97, 0x44, 0x17, 0xc4, 0xa7, 0x7e, 0x3d, 0x64, 0x5d, 0x19, 0x73,
  0x60, 0x81, 0x4f, 0xdc, 0x22, 0x2a, 0x90, 0x88, 0x46, 0xee, 0xb8, 0x14, 0xde, 0x5e, 0x0b, 0xdb,
  0xe0, 0x32, 0x3a, 0x0a, 0x49, 0x06, 0x24, 0x5c, 0xc2, 0xd3, 0xac, 0x62, 0x91, 0x95, 0xe4, 0x79,
  0xe7, 0xc8, 0x37, 0x6d, 0x8d, 0xd5, 0x4e, 0xa9, 0x6c, 0x56, 0xf4, 0xea, 0x65, 0x7a, 0xae, 0x08,
  0xba, 0x78, 0x25, 0x2e, 0x1c, 0xa6, 0xb4, 0xc6, 0xe8, 0xdd, 0x74, 0x1f, 0x4b, 0xbd, 0x8b, 0x8a,
  0x70, 0x3e, 0xb5, 0x66, 0x48, 0x03, 0xf6, 0x0e, 0x61, 0x35, 0x57, 0xb9, 0x86, 0xc1, 0x1d, 0x9e,
  0xe1, 0xf8, 0x98, 0x11, 0x69, 0xd9, 0x8e, 0x94, 0x9b, 0x1e, 0x87, 0xe9, 0xce, 0x55, 0x28, 0xdf,
  0x8c, 0xa1, 0x89, 0x0d, 0xbf, 0xe6, 0x42, 0x68, 0x41, 0x99, 0x2d, 0x0f, 0xb0, 0x54, 0xbb, 0x16]

/-- Multiplication by `x` in the AES field GF(2^8). -/
def xtime (b : Nat) : Nat :=
  if b % 256 < 128 then 2 * (b % 256) else (2 * (b % 256)) % 256 ^^^ 0x1b

/-- Applies the substitution table to every byte. -/
def subWord (w : Bytes) : Bytes :=
  w.map fun b => sbox.getD (b % 256) 0

/-- Cyclic rotation of a word by one byte. -/
def rotWord (w : Bytes) : Bytes :=
  w.drop 1 ++ w.take 1

/-- Key expansion loop for a key of `nk` words: appends `n` words to the schedule `w`. -/
def aesExpandKeyLoop (nk : Nat) : Nat → List Bytes → List Bytes
  | 0, w => w
  | n + 1, w =>
    let i := w.length
    let prev := w.getD (i - 1) []
    let temp :=
      if i % nk = 0 then xorBytes (subWord (rotWord prev)) [xtime^[i / nk - 1] 1, 0, 0, 0]
      else if nk > 6 ∧ i % nk = 4 then subWord prev
      else prev
    aesExpandKeyLoop nk n (w ++ [xorBytes (w.getD (i - nk) []) temp])

/-- Key schedule of AES: `4 * (Nr + 1)` words, with `Nr = Nk + 6` rounds. -/
def aesExpandKey (key : Bytes) : List Bytes :=
  let nk := key.length / 4
  aesExpandKeyLoop nk (4 * (nk + 7) - nk)
    ((List.range nk).map fun i => ((key.drop (4 * i)).take 4).map fun b => b % 256)

/-- The 16 bytes of round key `r`. -/
def aesRoundKey (w : List Bytes) (r : Nat) : Bytes :=
  ((w.drop (4 * r)).take 4).flatten

/-- The ShiftRows step on a state held column by column. -/
def aesShiftRows (st : Bytes) : Bytes :=
  (List.range 16).map fun i => st.getD (i % 4 + 4 * ((i / 4 + i % 4) % 4)) 0

/-- The MixColumns step on one column. -/
def aesMixColumn (c : Bytes) : Bytes :=
  let a0 := c.getD 0 0
  let a1 := c.getD 1 0
  let a2 := c.getD 2 0
  let a3 := c.getD 3 0
  [xtime a0 ^^^ (xtime a1 ^^^ a1) ^^^ a2 ^^^ a3,
   a0 ^^^ xtime a1 ^^^ (xtime a2 ^^^ a2) ^^^ a3,
   a0 ^^^ a1 ^^^ xtime a2 ^^^ (xtime a3 ^^^ a3),
   (xtime a0 ^^^ a0) ^^^ a1 ^^^ a2 ^^^ xtime a3]

/-- The MixColumns step. -/
def aesMixColumns (st : Bytes) : Bytes :=
  (List.range 4).flatMap fun c => aesMixColumn ((st.drop (4 * c)).take 4)

/-- AES encryption of one 16-byte block under a 16, 24 or 32 byte key. -/
def aesEncryptBlock (key block : Bytes) : Bytes :=
  let w := aesExpandKey key
  let nr := key.length / 4 + 6
  let st0 := xorBytes (block.map fun b => b % 256) (aesRoundKey w 0)
  let st := (List.range (nr - 1)).foldl
    (fun st r => xorBytes (aesMixColumns (aesShiftRows (subWord st))) (aesRoundKey w (r + 1))) st0
  xorBytes (aesShiftRows (subWord st)) (aesRoundKey w nr)

/-- The `cipher.Block` that `aes.NewCipher` returns. -/
structure AESCipher where
  key : Bytes
deriving DecidableEq, Repr

/-- Block size of AES in bytes (`aes.BlockSize`). -/
def AESCipher.BlockSize (_c : AESCipher) : Nat := 16

/-- Encrypts one block given as a 128-bit big-endian number. -/
def AESCipher.Encrypt (c : AESCipher) (x : Nat) : Nat :=
  beNat (aesEncryptBlock c.key (beBytes 16 x))

/-- Go `aes.NewCipher`: a key that is not 16, 24 or 32 bytes long is a `KeySizeError`. -/
def aesNewCipher (key : Bytes) : Except GoErr AESCipher :=
  if key.length = 16 ∨ key.length = 24 ∨ key.length = 32 then
    Except.ok ⟨key⟩
  else
    Except.error (GoErr.msg ("crypto/aes: invalid key size " ++ toString key.length))

/-! ## GCM (`crypto/cipher`) -/

/-- The `cipher.AEAD` that `cipher.NewGCM` returns: GCM over an AES block cipher, with the
standard nonce size of 12 bytes and tag size of 16 bytes. -/
structure AEAD where
  cipher : AESCipher
deriving DecidableEq, Repr

/-- Nonce size of standard GCM (`gcmStandardNonceSize`). -/
def gcmNonceSize : Nat := 12

/-- Tag size of GCM (`gcmTagSize`). -/
def gcmTagSize : Nat := 16

/-- Go `cipher.NewGCM`: requires a cipher with 128-bit blocks. -/
def cipherNewGCM (c : AESCipher) : Except GoErr AEAD :=
  if c.BlockSize ≠ 16 then
    Except.error (GoErr.msg "cipher: NewGCM requires 128-bit block cipher")
  else
    Except.ok ⟨c⟩

/-- Multiplication in GF(2^128) with the bit order of GCM (NIST SP 800-38D, algorithm 1). -/
def gcmMul (x y : Nat) : Nat :=
  ((List.range 128).foldl
    (fun (zv : Nat × Nat) i =>
      (if x.testBit (127 - i) then zv.1 ^^^ zv.2 else zv.1,
       if zv.2.testBit 0 then (zv.2 >>> 1) ^^^ (0xe1 <<< 120) else zv.2 >>> 1))
    (0, y)).1

/-- GHASH over the 16-byte blocks of `data`, the last one padded with zeros. -/
def ghashUpdate (h y : Nat) (data : Bytes) : Nat :=
  (List.range ((data.length + 15) / 16)).foldl
    (fun acc i =>
      let blk := (data.drop (16 * i)).take 16
      gcmMul (acc ^^^ beNat (blk ++ List.replicate (16 - blk.length) 0)) h)
    y

/-- Counter block for a 12-byte nonce: the nonce followed by a 32-bit counter. -/
def gcmCounter (nonce : Bytes) (c : Nat) : Nat :=
  beNat nonce * 2 ^ 32 + c % 2 ^ 32

/-- The first `n` bytes of the key stream; counter 1 is kept for the tag. -/
def gcmKeystream (enc : Nat → Nat) (nonce : Bytes) (n : Nat) : Bytes :=
  ((List.range ((n + 15) / 16)).flatMap
    fun j => beBytes 16 (enc (gcmCounter nonce (j + 2)))).take n

/-- Counter mode: exclusive or of the data with the key stream. -/
def gcmCounterCrypt (enc : Nat → Nat) (nonce data : Bytes) : Bytes :=
  xorBytes data (gcmKeystream enc nonce data.length)

/-- Authentication tag of a ciphertext and its associated data. -/
def gcmAuth (enc : Nat → Nat) (nonce ciphertext data : Bytes) : Bytes :=
  let h := enc 0
  let y := ghashUpdate h (ghashUpdate h 0 data) ciphertext
  let y := gcmMul
    (y ^^^ ((8 * data.length) % 2 ^ 64 * 2 ^ 64 + (8 * ciphertext.length) % 2 ^ 64)) h
  beBytes 16 (y ^^^ enc (gcmCounter nonce 1))

/-- Go `gcm.Seal(dst, nonce, plaintext, data)`: appends the ciphertext and its tag to `dst`.
It panics on a nonce of the wrong length and on a plaintext that is too large. -/
def AEAD.Seal (g : AEAD) (dst nonce plaintext data : Bytes) : Outcome Bytes :=
  if nonce.length ≠ gcmNonceSize then
    Outcome.panicked (GoErr.msg "crypto/cipher: incorrect nonce length given to GCM")
  else if plaintext.length > (2 ^ 32 - 2) * 16 then
    Outcome.panicked (GoErr.msg "crypto/cipher: message too large for GCM")
  else
    let ct := gcmCounterCrypt g.cipher.Encrypt nonce plaintext
    Outcome.returned (dst ++ ct ++ gcmAuth g.cipher.Encrypt nonce ct data)

/-- The error of a failed `Open` (`errOpen`). -/
def errOpen : GoErr := GoErr.msg "cipher: message authentication failed"

/-- Go `gcm.Open(dst, nonce, ciphertext, data)`: checks the tag and appends the plaintext to
`dst`. It panics on a nonce of the wrong length; every other failure is `errOpen`. -/
def AEAD.Open (g : AEAD) (dst nonce ciphertext data : Bytes) : Outcome (Except GoErr Bytes) :=
  if nonce.length ≠ gcmNonceSize then
    Outcome.panicked (GoErr.msg "crypto/cipher: incorrect nonce length given to GCM")
  else if ciphertext.length < gcmTagSize then
    Outcome.returned (Except.error errOpen)
  else if ciphertext.length > (2 ^ 32 - 2) * 16 + gcmTagSize then
    Outcome.returned (Except.error errOpen)
  else
    let tag := ciphertext.drop (ciphertext.length - gcmTagSize)
    let ct := ciphertext.take (ciphertext.length - gcmTagSize)
    let expectedTag := gcmAuth g.cipher.Encrypt nonce ct data
    if expectedTag ≠ tag then
      Outcome.returned (Except.error errOpen)
    else
      Outcome.returned (Except.ok (dst ++ gcmCounterCrypt g.cipher.Encrypt nonce ct))

/-! ## Types of the client that `mediaretry.go` uses -/

/-- A user or device identifier (`types.JID`). -/
structure JID where
  User : String
  Agent : Nat
  Device : Nat
  Server : String
  AD : Bool
deriving DecidableEq, Repr

/-- The zero identifier (`types.EmptyJID`). -/
def EmptyJID : JID := ⟨"", 0, 0, "", false⟩

/-- Modelled from the spec: `JID.ToNonAD`, the "no-agent form" of a device identity, is not
among the translated sources; the agent and device parts are dropped. -/
def JID.ToNonAD (jid : JID) : JID :=
  { jid with Agent := 0, Device := 0, AD := false }

/-- The fields of `types.MessageInfo` that the retry receipt reads. -/
structure MessageInfo where
  Chat : JID
  Sender : JID
  IsFromMe : Bool
  IsGroup : Bool
  ID : String
deriving DecidableEq, Repr

/-- An instant (`time.Time`), as seconds and nanoseconds since the Unix epoch. -/
structure Time where
  sec : Int
  nsec : Int
deriving DecidableEq, Repr

/-- Go `time.Unix(sec, nsec)`, with the nanoseconds brought into `[0, 1e9)`. -/
def timeUnix (sec nsec : Int) : Time :=
  ⟨sec + nsec / 1000000000, nsec % 1000000000⟩

/-- The payload of a retry receipt (`waProto.ServerErrorReceipt`). -/
structure ServerErrorReceipt where
  StanzaId : Option String
deriving DecidableEq, Repr

/-- The payload of a retry notification (`waProto.MediaRetryNotification`). -/
structure MediaRetryNotification where
  StanzaId : Option String
  DirectPath : Option String
  Result : Option Nat
deriving DecidableEq, Repr

/-- The event a retry notification is parsed into (`events.MediaRetry`). -/
structure MediaRetry where
  Ciphertext : Bytes
  IV : Bytes
  Timestamp : Time
  MessageID : String
  ChatID : JID
  SenderID : JID
  FromMe : Bool
deriving DecidableEq, Repr

/-- The Go zero value of `events.MediaRetry` (`var evt events.MediaRetry`). -/
def MediaRetry.zero : MediaRetry :=
  ⟨[], [], ⟨0, 0⟩, "", EmptyJID, EmptyJID, false⟩

/-! ## Binary nodes (`waBinary.Node`, `waBinary.Attrs`) -/

/-- A value of the attribute mapping: the scalars the media retry code stores or reads. -/
inductive AttrValue where
  | str (s : String)
  | jid (j : JID)
  | bool (b : Bool)
deriving DecidableEq, Repr

/-- The attribute mapping of a node (`waBinary.Attrs`), as an association list whose first
entry for a key is the value of the key. -/
abbrev Attrs := List (String × AttrValue)

/-- Value stored under a key (`attrs[key]`), if any. -/
def Attrs.get (attrs : Attrs) (key : String) : Option AttrValue :=
  (attrs.find? fun kv => kv.1 == key).map fun kv => kv.2

/-- Assignment `attrs[key] = v`. -/
def Attrs.set (attrs : Attrs) (key : String) (v : AttrValue) : Attrs :=
  (attrs.filter fun kv => kv.1 != key) ++ [(key, v)]

/-- Content of a node: nothing, raw bytes, or a list of child nodes. -/
inductive Content (α : Type) where
  | empty
  | bytes (b : Bytes)
  | nodes (ns : List α)
deriving Repr

/-- A node of the wire format: a tag, attributes and content (`waBinary.Node`). -/
structure Node where
  Tag : String
  Attrs : Attrs
  Content : Content Node

/-- Modelled from the spec: `Node.GetChildren` is not among the translated sources; the
content is "either raw bytes, a child-node sequence, or empty", and only a child-node
sequence has children. -/
def Node.GetChildren (n : Node) : List Node :=
  match n.Content with
  | Content.nodes ns => ns
  | _ => []

/-- Modelled from the spec: `Node.GetOptionalChildByTag(tags...) -> (Node, bool)` is not
among the translated sources, and the spec gives its signature only. It follows the path of
tags from the node, taking at each step the first child with the tag. The boolean tells
whether the whole path was found; when a tag is missing, the node handed back is the deepest
node reached so far (the receiver itself when the first tag is missing), as the library's
accessor does. -/
def Node.GetOptionalChildByTag (n : Node) : List String → Node × Bool
  | [] => (n, true)
  | tag :: rest =>
    match n.GetChildren.find? fun c => c.Tag == tag with
    | some child => child.GetOptionalChildByTag rest
    | none => (n, false)

/-- Modelled from the spec: `Node.GetChildByTag(tags...) -> Node` is not among the
translated sources; it is `GetOptionalChildByTag` with the boolean dropped, so a caller
cannot tell a found node from the deepest node reached. -/
def Node.GetChildByTag (n : Node) (tags : List String) : Node :=
  (n.GetOptionalChildByTag tags).1

/-! ## Attribute getter (`waBinary.AttrUtility`) -/

/-- Modelled from the spec: the attribute cursor is not among the translated sources. It is
"bound to one attribute mapping" and "accumulates at most one recorded failure across many
extraction calls". -/
structure AttrUtility where
  Attrs : Attrs
  Err : Option GoErr
deriving DecidableEq, Repr

/-- Modelled from the spec: `Node.AttrGetter` opens a cursor on the node's own attributes. -/
def Node.AttrGetter (n : Node) : AttrUtility :=
  ⟨n.Attrs, none⟩

/-- Modelled from the spec: "records the first such failure (subsequent failures are
ignored)". -/
def AttrUtility.fail (au : AttrUtility) (e : GoErr) : AttrUtility :=
  match au.Err with
  | none => { au with Err := some e }
  | some _ => au

/-- Go `strconv.ParseInt(s, 10, 64)`: an optional sign and decimal digits, within the range
of `int64`. -/
def parseInt64 (s : String) : Option Int :=
  let digits (cs : List Char) : Option Nat :=
    if cs.isEmpty then none
    else cs.foldl (fun acc c =>
      acc.bind fun a => if c.isDigit then some (a * 10 + (c.toNat - 48)) else none) (some 0)
  match s.data with
  | '-' :: cs =>
    (digits cs).bind fun n => if n ≤ 2 ^ 63 then some (-(n : Int)) else none
  | '+' :: cs =>
    (digits cs).bind fun n => if n < 2 ^ 63 then some (n : Int) else none
  | cs =>
    (digits cs).bind fun n => if n < 2 ^ 63 then some (n : Int) else none

/-- Go `strconv.ParseBool`. -/
def parseBool (s : String) : Option Bool :=
  if s ∈ ["1", "t", "T", "TRUE", "true", "True"] then some true
  else if s ∈ ["0", "f", "F", "FALSE", "false", "False"] then some false
  else none

/-- Modelled from the spec: "a final check operation reports whether any failure
occurred". -/
def AttrUtility.OK (au : AttrUtility) : Bool :=
  au.Err.isNone

/-- Modelled from the spec: "a paired accessor returns a descriptive error (missing/malformed
key name) if so". -/
def AttrUtility.Error (au : AttrUtility) : Option GoErr :=
  au.Err

/-- Modelled from the spec: typed extraction of an integer, sent as a decimal string. -/
def AttrUtility.Int64 (au : AttrUtility) (key : String) : Int × AttrUtility :=
  match au.Attrs.get key with
  | some (AttrValue.str s) =>
    match parseInt64 s with
    | some n => (n, au)
    | none => (0, au.fail (GoErr.attrMalformed key))
  | some _ => (0, au.fail (GoErr.attrMalformed key))
  | none => (0, au.fail (GoErr.attrMissing key))

/-- Modelled from the spec: extraction of "an *optional* sender identifier": absence is not
a failure and gives the empty identifier; a value of another type is a failure. -/
def AttrUtility.OptionalJIDOrEmpty (au : AttrUtility) (key : String) : JID × AttrUtility :=
  match au.Attrs.get key with
  | some (AttrValue.jid j) => (j, au)
  | some _ => (EmptyJID, au.fail (GoErr.attrMalformed key))
  | none => (EmptyJID, au)

/-- Modelled from the spec: typed extraction of an identifier. -/
def AttrUtility.JID (au : AttrUtility) (key : String) : JID × AttrUtility :=
  match au.Attrs.get key with
  | some (AttrValue.jid j) => (j, au)
  | some _ => (EmptyJID, au.fail (GoErr.attrMalformed key))
  | none => (EmptyJID, au.fail (GoErr.attrMissing key))

/-- Modelled from the spec: typed extraction of a boolean, sent as a string. -/
def AttrUtility.Bool (au : AttrUtility) (key : String) : Bool × AttrUtility :=
  match au.Attrs.get key with
  | some (AttrValue.str s) =>
    match parseBool s with
    | some b => (b, au)
    | none => (false, au.fail (GoErr.attrMalformed key))
  | some _ => (false, au.fail (GoErr.attrMalformed key))
  | none => (false, au.fail (GoErr.attrMissing key))

/-- Modelled from the spec: typed extraction of a string: "looks up the key; on success
returns the typed value; on absence or type mismatch, records the first such failure ...
and returns that type's zero value". -/
def AttrUtility.String (au : AttrUtility) (key : String) : String × AttrUtility :=
  match au.Attrs.get key with
  | some (AttrValue.str s) => (s, au)
  | some _ => ("", au.fail (GoErr.attrMalformed key))
  | none => ("", au.fail (GoErr.attrMissing key))

/-! ## Collaborators outside the package -/

/-- The libraries whose results `mediaretry.go` branches on: protobuf encoding and the
secure randomness source `crypto/rand`. The source is either failing, or a stream of bytes. -/
structure Runtime where
  protoMarshal : ServerErrorReceipt → Except GoErr Bytes
  protoUnmarshal : Bytes → Except GoErr MediaRetryNotification
  randReader : Except GoErr (Nat → Nat)

/-- Go `rand.Read(b)`: fills the whole of `b` with random bytes, or fails. -/
def Runtime.randRead (rt : Runtime) (b : Bytes) : Except GoErr Bytes :=
  match rt.randReader with
  | Except.error err => Except.error err
  | Except.ok stream => Except.ok ((List.range b.length).map fun i => stream i % 256)

/-- The client, with what it has handed to its collaborators so far: the nodes given to
the transport, the events given to the dispatcher, and the warnings logged. -/
structure Client where
  StoreID : JID
  transport : Node → Option GoErr
  sent : List Node
  dispatched : List (Option MediaRetry)
  warnings : List GoErr

/-- The transport write `cli.sendNode(node)`: one write, whose error is the transport's. -/
def Client.sendNode (cli : Client) (node : Node) : Option GoErr × Client :=
  (cli.transport node, { cli with sent := cli.sent ++ [node] })

/-- The delivery `cli.dispatchEvent(evt)` to the subscribers. -/
def Client.dispatchEvent (cli : Client) (evt : Option MediaRetry) : Client :=
  { cli with dispatched := cli.dispatched ++ [evt] }

/-- The log call `cli.Log.Warnf(text + ": %v", err)`. -/
def Client.Warnf (cli : Client) (text : String) (err : GoErr) : Client :=
  { cli with warnings := cli.warnings ++ [GoErr.wrap text err] }

/-! ## `mediaretry.go` -/

/-- Go `getMediaRetryKey` (mediaretry.go, lines 25-27). -/
def getMediaRetryKey (mediaKey : Bytes) : Bytes :=
  hkdfutil.SHA256 mediaKey [] (stringBytes "WhatsApp Media Retry Notification") 32

/-- Go `prepareMediaRetryGCM` (mediaretry.go, lines 29-39). -/
def prepareMediaRetryGCM (mediaKey : Bytes) : Except GoErr AEAD :=
  match aesNewCipher (getMediaRetryKey mediaKey) with
  | Except.error err => Except.error (Errorf "failed to initialize AES cipher" (some err))
  | Except.ok block =>
    match cipherNewGCM block with
    | Except.error err => Except.error (Errorf "failed to initialize GCM" (some err))
    | Except.ok gcm => Except.ok gcm

/-- Go `encryptMediaRetryReceipt` (mediaretry.go, lines 41-63). The result is the triple
`(ciphertext, iv, err)` of named results, or a panic. -/
def encryptMediaRetryReceipt (rt : Runtime) (messageID : String) (mediaKey : Bytes) :
    Outcome (Bytes × Bytes × Option GoErr) :=
  let receipt : ServerErrorReceipt := { StanzaId := some messageID }
  match rt.protoMarshal receipt with
  | Except.error err =>
    Outcome.returned ([], [], some (Errorf "failed to marshal payload" (some err)))
  | Except.ok plaintext =>
    match prepareMediaRetryGCM mediaKey with
    | Except.error err => Outcome.returned ([], [], some err)
    | Except.ok gcm =>
      match rt.randRead (List.replicate 12 0) with
      | Except.error err => Outcome.panicked err
      | Except.ok iv =>
        match gcm.Seal (plaintext.take 0) iv plaintext (stringBytes messageID) with
        | Outcome.panicked cause => Outcome.panicked cause
        | Outcome.returned ciphertext => Outcome.returned (ciphertext, iv, none)

/-- Go `Client.SendMediaRetryReceipt` (mediaretry.go, lines 69-104). -/
def Client.SendMediaRetryReceipt (rt : Runtime) (cli : Client) (message : MessageInfo)
    (mediaKey : Bytes) : Outcome (Option GoErr) × Client :=
  match encryptMediaRetryReceipt rt message.ID mediaKey with
  | Outcome.panicked cause => (Outcome.panicked cause, cli)
  | Outcome.returned (_, _, some err) =>
    (Outcome.returned (some (Errorf "failed to prepare encrypted retry receipt" (some err))), cli)
  | Outcome.returned (ciphertext, iv, none) =>
    let rmrAttrs : Attrs :=
      [("jid", AttrValue.jid message.Chat), ("from_me", AttrValue.bool message.IsFromMe)]
    let rmrAttrs : Attrs :=
      if message.IsGroup then rmrAttrs.set "participant" (AttrValue.jid message.Sender)
      else rmrAttrs
    let encryptedRequest : List Node := [
      { Tag := "enc_p", Attrs := [], Content := Content.bytes ciphertext },
      { Tag := "enc_iv", Attrs := [], Content := Content.bytes iv }]
    let r := cli.sendNode {
      Tag := "receipt"
      Attrs := [
        ("id", AttrValue.str message.ID),
        ("to", AttrValue.jid cli.StoreID.ToNonAD),
        ("type", AttrValue.str "server-error")]
      Content := Content.nodes [
        { Tag := "encrypt", Attrs := [], Content := Content.nodes encryptedRequest },
        { Tag := "rmr", Attrs := rmrAttrs, Content := Content.empty }] }
    match r.1 with
    | some err => (Outcome.returned (some err), r.2)
    | none => (Outcome.returned none, r.2)

/-- Go `DecryptMediaRetryNotification` (mediaretry.go, lines 107-122). The result is the pair
`(notification, err)`, or a panic. -/
def DecryptMediaRetryNotification (rt : Runtime) (evt : MediaRetry) (mediaKey : Bytes) :
    Outcome (Option MediaRetryNotification × Option GoErr) :=
  match prepareMediaRetryGCM mediaKey with
  | Except.error err => Outcome.returned (none, some err)
  | Except.ok gcm =>
    match gcm.Open [] evt.IV evt.Ciphertext (stringBytes evt.MessageID) with
    | Outcome.panicked cause => Outcome.panicked cause
    | Outcome.returned (Except.error err) =>
      Outcome.returned (none, some (Errorf "failed to decrypt notification" (some err)))
    | Outcome.returned (Except.ok plaintext) =>
      match rt.protoUnmarshal plaintext with
      | Except.error err =>
        Outcome.returned (none, some (Errorf
          "failed to unmarshal notification (invalid encryption key?)" (some err)))
      | Except.ok notif => Outcome.returned (some notif, none)

/-- Go `parseMediaRetryNotification` (mediaretry.go, lines 124-153). The result is the pair
`(event, err)`. -/
def parseMediaRetryNotification (node : Node) : Option MediaRetry × Option GoErr :=
  let ag := node.AttrGetter
  let evt := MediaRetry.zero
  let t := ag.Int64 "t"
  let evt := { evt with Timestamp := timeUnix t.1 0 }
  let id := t.2.String "id"
  let evt := { evt with MessageID := id.1 }
  let ag := id.2
  if !ag.OK then
    (none, ag.Error)
  else
    match node.GetOptionalChildByTag ["rmr"] with
    | (_, false) =>
      (none, some (GoErr.elementMissing { Tag := "rmr", In := "retry notification" }))
    | (rmr, true) =>
      let rmrAG := rmr.AttrGetter
      let chat := rmrAG.JID "jid"
      let evt := { evt with ChatID := chat.1 }
      let fromMe := chat.2.Bool "from_me"
      let evt := { evt with FromMe := fromMe.1 }
      let sender := fromMe.2.OptionalJIDOrEmpty "participant"
      let evt := { evt with SenderID := sender.1 }
      let rmrAG := sender.2
      if !rmrAG.OK then
        (none, some (Errorf "missing attributes in <rmr> tag" rmrAG.Error))
      else
        match (node.GetChildByTag ["encrypt", "enc_p"]).Content with
        | Content.bytes ciphertext =>
          let evt := { evt with Ciphertext := ciphertext }
          match (node.GetChildByTag ["encrypt", "enc_iv"]).Content with
          | Content.bytes iv => (some { evt with IV := iv }, none)
          | _ =>
            (none, some (GoErr.elementMissing
              { Tag := "enc_iv", In := "retry notification " ++ evt.MessageID }))
        | _ =>
          (none, some (GoErr.elementMissing
            { Tag := "enc_p", In := "retry notification " ++ evt.MessageID }))

/-- Go `Client.handleMediaRetryNotification` (mediaretry.go, lines 155-163). -/
def Client.handleMediaRetryNotification (cli : Client) (node : Node) : Client :=
  match parseMediaRetryNotification node with
  | (_, some err) => cli.Warnf "Failed to parse media retry notification" err
  | (evt, none) => cli.dispatchEvent evt

/-! ## Names for intermediate values of the source -/

/-- The random bytes read from a stream into a 12-byte buffer. -/
def ivOf (stream : Nat → Nat) : Bytes :=
  (List.range 12).map fun i => stream i % 256

/-- What `gcm.Seal` appends under the media retry key: the ciphertext and its tag. -/
def sealedOf (mediaKey iv plaintext aad : Bytes) : Bytes :=
  let enc := (AESCipher.mk (getMediaRetryKey mediaKey)).Encrypt
  gcmCounterCrypt enc iv plaintext ++ gcmAuth enc iv (gcmCounterCrypt enc iv plaintext) aad

/-- The attributes of the `rmr` node of a receipt for `message`. -/
def rmrAttrsOf (message : MessageInfo) : Attrs :=
  if message.IsGroup then
    Attrs.set [("jid", AttrValue.jid message.Chat), ("from_me", AttrValue.bool message.IsFromMe)]
      "participant" (AttrValue.jid message.Sender)
  else [("jid", AttrValue.jid message.Chat), ("from_me", AttrValue.bool message.IsFromMe)]

/-- The receipt node for `message` carrying a ciphertext and its IV. -/
def receiptNodeOf (cli : Client) (message : MessageInfo) (ciphertext iv : Bytes) : Node :=
  { Tag := "receipt"
    Attrs := [
      ("id", AttrValue.str message.ID),
      ("to", AttrValue.jid cli.StoreID.ToNonAD),
      ("type", AttrValue.str "server-error")]
    Content := Content.nodes [
      { Tag := "encrypt", Attrs := [], Content := Content.nodes [
          { Tag := "enc_p", Attrs := [], Content := Content.bytes ciphertext },
          { Tag := "enc_iv", Attrs := [], Content := Content.bytes iv }] },
      { Tag := "rmr", Attrs := rmrAttrsOf message, Content := Content.empty }] }

/-! ## Concrete inputs used to exercise the definitions -/

/-- Base-128 encoding of a length in the protobuf wire format, on at most `fuel` bytes. -/
def protoVarint : Nat → Nat → Bytes
  | 0, _ => []
  | fuel + 1, n => if n < 128 then [n] else (n % 128 + 128) :: protoVarint fuel (n / 128)

/-- Wire format of a `ServerErrorReceipt`: the string field number 1. -/
def wireServerErrorReceipt (r : ServerErrorReceipt) : Except GoErr Bytes :=
  match r.StanzaId with
  | some s => Except.ok ([0x0a] ++ protoVarint 10 (stringBytes s).length ++ stringBytes s)
  | none => Except.ok []

/-- A decoder that accepts only the empty message, enough to run the examples. -/
def wireEmptyNotification (b : Bytes) : Except GoErr MediaRetryNotification :=
  if b.isEmpty then Except.ok ⟨none, none, none⟩
  else Except.error (GoErr.msg "proto: cannot parse invalid wire-format data")

/-- A runtime in which every library call succeeds. -/
def goodRuntime : Runtime :=
  { protoMarshal := wireServerErrorReceipt
    protoUnmarshal := wireEmptyNotification
    randReader := Except.ok fun i => 17 * i + 1 }

/-- A runtime whose randomness source fails. -/
def noEntropyRuntime : Runtime :=
  { goodRuntime with randReader := Except.error (GoErr.msg "unexpected EOF") }

/-- A runtime whose protobuf encoder fails. -/
def noMarshalRuntime : Runtime :=
  { goodRuntime with protoMarshal := fun _ => Except.error (GoErr.msg "proto: size mismatch") }

/-- A media key of 32 zero bytes. -/
def zeroKey : Bytes := List.replicate 32 0

/-- A user identifier. -/
def aliceJID : JID := ⟨"491700000001", 0, 0, "s.whatsapp.net", false⟩

/-- A group identifier. -/
def groupJID : JID := ⟨"120363000000000001", 0, 0, "g.us", false⟩

/-- A client that has not written anything yet; its transport accepts every node. -/
def freshClient : Client :=
  { StoreID := ⟨"491700000002", 0, 3, "s.whatsapp.net", true⟩
    transport := fun _ => none
    sent := []
    dispatched := []
    warnings := [] }

/-- A message in a group chat, sent by `aliceJID`. -/
def groupMessage : MessageInfo :=
  { Chat := groupJID, Sender := aliceJID, IsFromMe := false, IsGroup := true, ID := "ABC123" }

/-- The `encrypt` child of a notification. -/
def encryptNode (ciphertext iv : Bytes) : Node :=
  { Tag := "encrypt", Attrs := [], Content := Content.nodes [
      { Tag := "enc_p", Attrs := [], Content := Content.bytes ciphertext },
      { Tag := "enc_iv", Attrs := [], Content := Content.bytes iv }] }

/-- The `rmr` child of a notification for a direct chat (no participant). -/
def rmrNode : Node :=
  { Tag := "rmr", Attrs := [("jid", AttrValue.jid aliceJID), ("from_me", AttrValue.str "true")],
    Content := Content.empty }

/-- A well-formed retry notification. -/
def goodNotification : Node :=
  { Tag := "notification",
    Attrs := [("t", AttrValue.str "1650000000"), ("id", AttrValue.str "ABC123")],
    Content := Content.nodes [rmrNode, encryptNode [1, 2, 3] [4, 5, 6]] }

/-- A notification without its `rmr` child. -/
def notificationWithoutRmr : Node :=
  { goodNotification with Content := Content.nodes [encryptNode [1, 2, 3] [4, 5, 6]] }

/-- A notification without its `encrypt` child. -/
def notificationWithoutEncrypt : Node :=
  { goodNotification with Content := Content.nodes [rmrNode] }

/-- A message in a direct chat with `aliceJID`. -/
def directMessage : MessageInfo :=
  { Chat := aliceJID, Sender := aliceJID, IsFromMe := false, IsGroup := false, ID := "ABC123" }

/-- The serialized receipt for the message identifier `ABC123`. -/
def samplePlaintext : Bytes := [10, 6, 65, 66, 67, 49, 50, 51]

/-- The IV that `goodRuntime` draws. -/
def sampleIV : Bytes := [1, 18, 35, 52, 69, 86, 103, 120, 137, 154, 171, 188]

/-- The ciphertext and tag of `samplePlaintext` under `zeroKey` and `sampleIV`. -/
def sampleCiphertext : Bytes :=
  [193, 173, 19, 66, 110, 33, 137, 179, 128, 165, 213, 37, 126, 227, 17, 184, 50, 183, 215, 112,
   224, 76, 87, 191]

/-- A well-formed retry notification whose `enc_iv` holds 11 bytes instead of 12. -/
def shortIVNotification : Node :=
  { goodNotification with
    Content := Content.nodes [rmrNode, encryptNode sampleCiphertext (sampleIV.take 11)] }

/-- The event that `shortIVNotification` parses into. -/
def shortIVEvent : MediaRetry :=
  { Ciphertext := sampleCiphertext
    IV := sampleIV.take 11
    Timestamp := ⟨1650000000, 0⟩
    MessageID := "ABC123"
    ChatID := aliceJID
    SenderID := EmptyJID
    FromMe := true }

/-- A notification whose `encrypt` child has no `enc_iv`. -/
def notificationWithoutIV : Node :=
  { goodNotification with
    Content := Content.nodes [rmrNode,
      { Tag := "encrypt", Attrs := [], Content := Content.nodes [
          { Tag := "enc_p", Attrs := [], Content := Content.bytes [1, 2, 3] }] }] }

/-- A notification whose `enc_p` holds child nodes instead of raw bytes. -/
def notificationWithNestedEncP : Node :=
  { goodNotification with
    Content := Content.nodes [rmrNode,
      { Tag := "encrypt", Attrs := [], Content := Content.nodes [
          { Tag := "enc_p", Attrs := [], Content := Content.nodes [] },
          { Tag := "enc_iv", Attrs := [], Content := Content.bytes [4, 5, 6] }] }] }

/-- The `rmr` child of a notification for a group chat, with the participant. -/
def groupRmrNode : Node :=
  { Tag := "rmr",
    Attrs := [("jid", AttrValue.jid groupJID), ("from_me", AttrValue.str "false"),
      ("participant", AttrValue.jid aliceJID)],
    Content := Content.empty }

/-- A well-formed retry notification for a message of a group chat. -/
def groupNotification : Node :=
  { goodNotification with
    Content := Content.nodes [groupRmrNode, encryptNode [1, 2, 3] [4, 5, 6]] }

/-- A notification whose `encrypt` child holds raw bytes itself and has no `enc_p` and no
`enc_iv` child. -/
def notificationWithEncryptBytes : Node :=
  { goodNotification with
    Content := Content.nodes [rmrNode,
      { Tag := "encrypt", Attrs := [], Content := Content.bytes [7, 8, 9] }] }

/-! ## Facts about the primitives -/

/-- The big-endian encoding on `len` bytes has `len` bytes. -/
theorem beBytes_length (len n : Nat) : (beBytes len n).length = len := by
  simp [beBytes]

/-- A SHA-256 digest has 32 bytes. -/
theorem sha256_length (m : Bytes) : (sha256 m).length = 32 := by
  simp [sha256, beBytes_length]

/-- An HMAC-SHA256 value has 32 bytes. -/
theorem hmacSHA256_length (key m : Bytes) : (hmacSHA256 key m).length = 32 := by
  simp [hmacSHA256, sha256_length]

/-- HKDF-Expand produces `n` blocks of 32 bytes. -/
theorem hkdfExpandBlocks_length (prk info : Bytes) (n : Nat) :
    ∀ (prev : Bytes) (i : Nat), (hkdfExpandBlocks prk info n prev i).length = 32 * n := by
  induction n with
  | zero => intro prev i; simp [hkdfExpandBlocks]
  | succ k ih =>
    intro prev i
    simp only [hkdfExpandBlocks, List.length_append, hmacSHA256_length, ih]
    omega

/-- HKDF returns exactly the number of bytes asked for. -/
theorem hkdfSHA256_length (secret salt info : Bytes) (n : Nat) :
    (hkdfSHA256 secret salt info n).length = n := by
  simp only [hkdfSHA256, List.length_take, hkdfExpandBlocks_length]
  omega

/-- The media retry key always has 32 bytes. -/
theorem getMediaRetryKey_length (mediaKey : Bytes) : (getMediaRetryKey mediaKey).length = 32 := by
  simp [getMediaRetryKey, hkdfutil.SHA256, hkdfSHA256_length]

/-- The cipher construction never fails: the derived key is a valid AES-256 key. -/
theorem prepareMediaRetryGCM_ok (mediaKey : Bytes) :
    prepareMediaRetryGCM mediaKey = Except.ok ⟨⟨getMediaRetryKey mediaKey⟩⟩ := by
  simp [prepareMediaRetryGCM, aesNewCipher, getMediaRetryKey_length, cipherNewGCM,
    AESCipher.BlockSize]

/-- Length of a concatenation of blocks that all have `c` bytes. -/
theorem flatMap_length_const {α : Type} (f : α → Bytes) (c : Nat)
    (hf : ∀ x, (f x).length = c) :
    ∀ l : List α, (l.flatMap f).length = c * l.length := by
  intro l
  induction l with
  | nil => simp
  | cons x xs ih => simp [List.flatMap_cons, hf, ih, Nat.mul_succ]; omega

/-- The key stream has exactly the length asked for. -/
theorem gcmKeystream_length (enc : Nat → Nat) (nonce : Bytes) (n : Nat) :
    (gcmKeystream enc nonce n).length = n := by
  unfold gcmKeystream
  rw [List.length_take, flatMap_length_const _ 16 (fun j => beBytes_length 16 _)]
  simp only [List.length_range]
  omega

/-- Counter mode preserves the length of the data. -/
theorem gcmCounterCrypt_length (enc : Nat → Nat) (nonce data : Bytes) :
    (gcmCounterCrypt enc nonce data).length = data.length := by
  simp [gcmCounterCrypt, xorBytes, gcmKeystream_length]

/-- Exclusive or with the same key stream twice gives the data back. -/
theorem xorBytes_cancel : ∀ (d ks : Bytes), d.length ≤ ks.length →
    xorBytes (xorBytes d ks) ks = d := by
  intro d
  induction d with
  | nil => intro ks _; simp [xorBytes]
  | cons x xs ih =>
    intro ks h
    cases ks with
    | nil => simp at h
    | cons k ks =>
      simp only [xorBytes, List.zipWith_cons_cons, List.cons.injEq]
      refine ⟨?_, ih ks (by simpa using h)⟩
      rw [Nat.xor_assoc, Nat.xor_self, Nat.xor_zero]

/-- Counter mode under the same nonce is its own inverse. -/
theorem gcmCounterCrypt_involutive (enc : Nat → Nat) (nonce data : Bytes) :
    gcmCounterCrypt enc nonce (gcmCounterCrypt enc nonce data) = data := by
  rw [gcmCounterCrypt, gcmCounterCrypt_length]
  exact xorBytes_cancel _ _ (by rw [gcmKeystream_length])

/-- A GCM tag has 16 bytes. -/
theorem gcmAuth_length (enc : Nat → Nat) (nonce ct data : Bytes) :
    (gcmAuth enc nonce ct data).length = 16 := by
  simp [gcmAuth, beBytes_length]

/-- What `Seal` returns for a 12-byte nonce and a plaintext within the size limit. -/
theorem AEAD.Seal_eq (g : AEAD) (dst nonce plaintext data : Bytes)
    (hn : nonce.length = 12) (hp : plaintext.length ≤ (2 ^ 32 - 2) * 16) :
    g.Seal dst nonce plaintext data = Outcome.returned
      (dst ++ gcmCounterCrypt g.cipher.Encrypt nonce plaintext
        ++ gcmAuth g.cipher.Encrypt nonce
          (gcmCounterCrypt g.cipher.Encrypt nonce plaintext) data) := by
  unfold AEAD.Seal
  rw [if_neg (by simp [gcmNonceSize, hn]), if_neg (by omega)]

/-- Opening what `Seal` produced gives the plaintext back. -/
theorem AEAD.Open_sealed (g : AEAD) (nonce plaintext data : Bytes)
    (hn : nonce.length = 12) (hp : plaintext.length ≤ (2 ^ 32 - 2) * 16) :
    g.Open [] nonce
      (gcmCounterCrypt g.cipher.Encrypt nonce plaintext
        ++ gcmAuth g.cipher.Encrypt nonce (gcmCounterCrypt g.cipher.Encrypt nonce plaintext) data)
      data = Outcome.returned (Except.ok plaintext) := by
  have hl := gcmCounterCrypt_length g.cipher.Encrypt nonce plaintext
  have ht := gcmAuth_length g.cipher.Encrypt nonce
    (gcmCounterCrypt g.cipher.Encrypt nonce plaintext) data
  unfold AEAD.Open
  rw [if_neg (by simp [gcmNonceSize, hn]), if_neg (by simp [gcmTagSize, ht]),
    if_neg (by simp only [List.length_append, hl, ht, gcmTagSize]; omega)]
  simp only [List.length_append, hl, ht, gcmTagSize, Nat.add_sub_cancel]
  rw [← hl, List.take_left, List.drop_left]
  simp [gcmCounterCrypt_involutive]

/-- A failure to serialize is returned as a wrapped error, with no ciphertext and no IV. -/
theorem encrypt_marshal_error (rt : Runtime) (messageID : String) (mediaKey : Bytes) (e : GoErr)
    (hm : rt.protoMarshal ⟨some messageID⟩ = Except.error e) :
    encryptMediaRetryReceipt rt messageID mediaKey =
      Outcome.returned ([], [], some (GoErr.wrap "failed to marshal payload" e)) := by
  simp [encryptMediaRetryReceipt, hm, Errorf]

/-- A failure of the randomness source, once the receipt is serialized, is a panic. -/
theorem encrypt_rand_error (rt : Runtime) (messageID : String) (mediaKey pt : Bytes) (e : GoErr)
    (hm : rt.protoMarshal ⟨some messageID⟩ = Except.ok pt)
    (hr : rt.randReader = Except.error e) :
    encryptMediaRetryReceipt rt messageID mediaKey = Outcome.panicked e := by
  simp [encryptMediaRetryReceipt, hm, prepareMediaRetryGCM_ok, Runtime.randRead, hr]

/-- A serialized receipt over the size limit of GCM makes `Seal` panic. -/
theorem encrypt_too_large (rt : Runtime) (messageID : String) (mediaKey pt : Bytes)
    (stream : Nat → Nat)
    (hm : rt.protoMarshal ⟨some messageID⟩ = Except.ok pt)
    (hr : rt.randReader = Except.ok stream) (hp : (2 ^ 32 - 2) * 16 < pt.length) :
    encryptMediaRetryReceipt rt messageID mediaKey =
      Outcome.panicked (GoErr.msg "crypto/cipher: message too large for GCM") := by
  have hp2 : 68719476704 < pt.length := by omega
  simp [encryptMediaRetryReceipt, hm, prepareMediaRetryGCM_ok, Runtime.randRead, hr, AEAD.Seal,
    gcmNonceSize, hp2]

/-- The successful path of `encryptMediaRetryReceipt`. -/
theorem encrypt_ok (rt : Runtime) (messageID : String) (mediaKey pt : Bytes)
    (stream : Nat → Nat)
    (hm : rt.protoMarshal ⟨some messageID⟩ = Except.ok pt)
    (hr : rt.randReader = Except.ok stream) (hp : pt.length ≤ (2 ^ 32 - 2) * 16) :
    encryptMediaRetryReceipt rt messageID mediaKey =
      Outcome.returned
        (sealedOf mediaKey (ivOf stream) pt (stringBytes messageID), ivOf stream, none) := by
  have hiv : (ivOf stream).length = 12 := by simp [ivOf]
  simp only [encryptMediaRetryReceipt, hm, prepareMediaRetryGCM_ok, Runtime.randRead, hr,
    List.length_replicate, List.take_zero]
  rw [show (List.map (fun i => stream i % 256) (List.range 12)) = ivOf stream from rfl]
  rw [AEAD.Seal_eq _ _ _ _ _ hiv hp]
  simp [sealedOf]

/-- What a successful return of `encryptMediaRetryReceipt` tells about the run. -/
theorem encrypt_returned_inv (rt : Runtime) (messageID : String) (mediaKey ct iv : Bytes)
    (h : encryptMediaRetryReceipt rt messageID mediaKey = Outcome.returned (ct, iv, none)) :
    ∃ pt stream, rt.protoMarshal ⟨some messageID⟩ = Except.ok pt ∧
      rt.randReader = Except.ok stream ∧ pt.length ≤ (2 ^ 32 - 2) * 16 ∧
      iv = ivOf stream ∧ ct = sealedOf mediaKey (ivOf stream) pt (stringBytes messageID) := by
  cases hm : rt.protoMarshal ⟨some messageID⟩ with
  | error e => rw [encrypt_marshal_error rt messageID mediaKey e hm] at h; simp at h
  | ok pt =>
    cases hr : rt.randReader with
    | error e => rw [encrypt_rand_error rt messageID mediaKey pt e hm hr] at h; simp at h
    | ok stream =>
      by_cases hp : pt.length ≤ (2 ^ 32 - 2) * 16
      · rw [encrypt_ok rt messageID mediaKey pt stream hm hr hp] at h
        simp only [Outcome.returned.injEq, Prod.mk.injEq, and_true] at h
        exact ⟨pt, stream, rfl, rfl, hp, h.2.symm, h.1.symm⟩
      · rw [encrypt_too_large rt messageID mediaKey pt stream hm hr (by omega)] at h
        simp at h

/-! ## Known answers of the primitives -/

/-- SHA-256 of `abc` (FIPS 180-4 example). -/
theorem sha256_abc :
    sha256 [0x61, 0x62, 0x63] =
      [0xba, 0x78, 0x16, 0xbf, 0x8f, 0x01, 0xcf, 0xea, 0x41, 0x41, 0x40, 0xde, 0x5d, 0xae, 0x22,
       0x23, 0xb0, 0x03, 0x61, 0xa3, 0x96, 0x17, 0x7a, 0x9c, 0xb4, 0x10, 0xff, 0x61, 0xf2, 0x00,
       0x15, 0xad] := by
  decide!

/-- HMAC with SHA-256, test case 1 of RFC 4231 (the data is `Hi There`). -/
theorem hmacSHA256_rfc4231_case1 :
    hmacSHA256 (List.replicate 20 0x0b) [0x48, 0x69, 0x20, 0x54, 0x68, 0x65, 0x72, 0x65] =
      [0xb0, 0x34, 0x4c, 0x61, 0xd8, 0xdb, 0x38, 0x53, 0x5c, 0xa8, 0xaf, 0xce, 0xaf, 0x0b, 0xf1,
       0x2b, 0x88, 0x1d, 0xc2, 0x00, 0xc9, 0x83, 0x3d, 0xa7, 0x26, 0xe9, 0x37, 0x6c, 0x2e, 0x32,
       0xcf, 0xf7] := by
  decide!

/-- AES-256 on the example vector of FIPS 197, appendix C.3. -/
theorem aes256_fips197 :
    aesEncryptBlock (List.range 32) ((List.range 16).map fun i => 0x11 * i) =
      [0x8e, 0xa2, 0xb7, 0xca, 0x51, 0x67, 0x45, 0xbf, 0xea, 0xfc, 0x49, 0x90, 0x4b, 0x49, 0x60,
       0x89] := by
  decide!

/-- AES-256-GCM with a zero key, a zero nonce and one zero block (test case 14 of the GCM
specification). -/
theorem gcm_test_case_14 :
    (AEAD.mk ⟨List.replicate 32 0⟩).Seal [] (List.replicate 12 0) (List.replicate 16 0) [] =
      Outcome.returned
        [0xce, 0xa7, 0x40, 0x3d, 0x4d, 0x60, 0x6b, 0x6e, 0x07, 0x4e, 0xc5, 0xd3, 0xba, 0xf3, 0x9d,
         0x18, 0xd0, 0xd1, 0xc8, 0xa7, 0x99, 0x99, 0x6b, 0xf0, 0x26, 0x5b, 0x98, 0xb5, 0xd4, 0x8a,
         0xb9, 0x19] := by
  decide!

/-! ## Encrypting and opening retry receipts -/

/-- The encryption of the receipt for `ABC123` under `zeroKey`, evaluated. -/
theorem encrypt_sample :
    encryptMediaRetryReceipt goodRuntime "ABC123" zeroKey =
      Outcome.returned (sampleCiphertext, sampleIV, none) := by
  decide!

/-- C1: round trip. Whenever `encryptMediaRetryReceipt` returns `(ciphertext, iv)` without
error, the AEAD of `prepareMediaRetryGCM` for the same media key opens `ciphertext` with
nonce `iv` and the bytes of the message identifier as associated data, without an
authentication error, and yields exactly the serialized receipt that was sealed; so
`DecryptMediaRetryNotification` on an event carrying these values gets past decryption and
returns what the decoder makes of that plaintext. -/
theorem encrypt_open_roundtrip (rt : Runtime) (messageID : String)
    (mediaKey ciphertext iv : Bytes)
    (h : encryptMediaRetryReceipt rt messageID mediaKey
      = Outcome.returned (ciphertext, iv, none)) :
    ∃ gcm plaintext,
      prepareMediaRetryGCM mediaKey = Except.ok gcm ∧
      rt.protoMarshal { StanzaId := some messageID } = Except.ok plaintext ∧
      gcm.Open [] iv ciphertext (stringBytes messageID)
        = Outcome.returned (Except.ok plaintext) ∧
      ∀ (ts : Time) (chat sender : JID) (fromMe : Bool),
        DecryptMediaRetryNotification rt
            { Ciphertext := ciphertext, IV := iv, Timestamp := ts, MessageID := messageID,
              ChatID := chat, SenderID := sender, FromMe := fromMe } mediaKey =
          match rt.protoUnmarshal plaintext with
          | Except.error err =>
            Outcome.returned (none, some (GoErr.wrap
              "failed to unmarshal notification (invalid encryption key?)" err))
          | Except.ok notif => Outcome.returned (some notif, none) := by
  obtain ⟨pt, stream, hm, _, hp, hiv, hct⟩ :=
    encrypt_returned_inv rt messageID mediaKey ciphertext iv h
  have hlen : (ivOf stream).length = 12 := by simp [ivOf]
  have hopen := AEAD.Open_sealed ⟨⟨getMediaRetryKey mediaKey⟩⟩ (ivOf stream) pt
    (stringBytes messageID) hlen hp
  refine ⟨⟨⟨getMediaRetryKey mediaKey⟩⟩, pt, prepareMediaRetryGCM_ok mediaKey, hm, ?_, ?_⟩
  · rw [hiv, hct]; exact hopen
  · intro ts chat sender fromMe
    subst hiv hct
    simp only [DecryptMediaRetryNotification, prepareMediaRetryGCM_ok]
    have hopen2 : (AEAD.mk ⟨getMediaRetryKey mediaKey⟩).Open [] (ivOf stream)
        (sealedOf mediaKey (ivOf stream) pt (stringBytes messageID)) (stringBytes messageID)
        = Outcome.returned (Except.ok pt) := hopen
    rw [hopen2]
    simp only [Errorf]

/-- The round trip on the receipt for `ABC123`. -/
theorem encrypt_open_roundtrip_witness :
    encryptMediaRetryReceipt goodRuntime "ABC123" zeroKey
      = Outcome.returned (sampleCiphertext, sampleIV, none) ∧
    ∃ gcm plaintext,
      prepareMediaRetryGCM zeroKey = Except.ok gcm ∧
      goodRuntime.protoMarshal { StanzaId := some "ABC123" } = Except.ok plaintext ∧
      gcm.Open [] sampleIV sampleCiphertext (stringBytes "ABC123")
        = Outcome.returned (Except.ok plaintext) ∧
      ∀ (ts : Time) (chat sender : JID) (fromMe : Bool),
        DecryptMediaRetryNotification goodRuntime
            { Ciphertext := sampleCiphertext, IV := sampleIV, Timestamp := ts,
              MessageID := "ABC123", ChatID := chat, SenderID := sender, FromMe := fromMe }
            zeroKey =
          match goodRuntime.protoUnmarshal plaintext with
          | Except.error err =>
            Outcome.returned (none, some (GoErr.wrap
              "failed to unmarshal notification (invalid encryption key?)" err))
          | Except.ok notif => Outcome.returned (some notif, none) :=
  ⟨encrypt_sample,
    encrypt_open_roundtrip goodRuntime "ABC123" zeroKey sampleCiphertext sampleIV encrypt_sample⟩

/-- C9: whenever `encryptMediaRetryReceipt` succeeds, the IV it returns has exactly 12 bytes
and the ciphertext is exactly 16 bytes longer than the serialized receipt; the cipher is
built on the key `getMediaRetryKey mediaKey`, which has exactly 32 bytes. -/
theorem encrypt_lengths (rt : Runtime) (messageID : String) (mediaKey ciphertext iv : Bytes)
    (h : encryptMediaRetryReceipt rt messageID mediaKey
      = Outcome.returned (ciphertext, iv, none)) :
    iv.length = 12 ∧
    (∃ plaintext, rt.protoMarshal { StanzaId := some messageID } = Except.ok plaintext ∧
      ciphertext.length = plaintext.length + 16) ∧
    prepareMediaRetryGCM mediaKey = Except.ok ⟨⟨getMediaRetryKey mediaKey⟩⟩ ∧
    (getMediaRetryKey mediaKey).length = 32 := by
  obtain ⟨pt, stream, hm, _, _, hiv, hct⟩ :=
    encrypt_returned_inv rt messageID mediaKey ciphertext iv h
  refine ⟨by simp [hiv, ivOf], ⟨pt, hm, ?_⟩, prepareMediaRetryGCM_ok mediaKey,
    getMediaRetryKey_length mediaKey⟩
  simp [hct, sealedOf, gcmCounterCrypt_length, gcmAuth_length]

/-- The lengths on the receipt for `ABC123`: an IV of 12 bytes, 8 + 16 bytes of ciphertext. -/
theorem encrypt_lengths_witness :
    encryptMediaRetryReceipt goodRuntime "ABC123" zeroKey
      = Outcome.returned (sampleCiphertext, sampleIV, none) ∧
    sampleIV.length = 12 ∧
    (∃ plaintext, goodRuntime.protoMarshal { StanzaId := some "ABC123" } = Except.ok plaintext ∧
      sampleCiphertext.length = plaintext.length + 16) ∧
    prepareMediaRetryGCM zeroKey = Except.ok ⟨⟨getMediaRetryKey zeroKey⟩⟩ ∧
    (getMediaRetryKey zeroKey).length = 32 :=
  ⟨encrypt_sample,
    encrypt_lengths goodRuntime "ABC123" zeroKey sampleCiphertext sampleIV encrypt_sample⟩

/-- C7, as the code has it: when the randomness source fails while the IV is generated (the
receipt having been serialized), `encryptMediaRetryReceipt` does not return to its caller,
it panics with the failure of the source; and whenever the source fails, no ciphertext is
returned at all, so none is sealed under a fixed or default IV. -/
theorem encrypt_entropy_failure (rt : Runtime) (messageID : String) (mediaKey : Bytes)
    (e : GoErr) (hr : rt.randReader = Except.error e) :
    (∀ plaintext, rt.protoMarshal { StanzaId := some messageID } = Except.ok plaintext →
      encryptMediaRetryReceipt rt messageID mediaKey = Outcome.panicked e) ∧
    (∀ ciphertext iv, encryptMediaRetryReceipt rt messageID mediaKey
      ≠ Outcome.returned (ciphertext, iv, none)) := by
  refine ⟨fun pt hm => encrypt_rand_error rt messageID mediaKey pt e hm hr, ?_⟩
  intro ciphertext iv h
  obtain ⟨_, stream, _, hs, _⟩ := encrypt_returned_inv rt messageID mediaKey ciphertext iv h
  rw [hr] at hs
  exact absurd hs (by simp)

/-- The panic on the receipt for `ABC123` when the randomness source fails. -/
theorem encrypt_entropy_failure_witness :
    noEntropyRuntime.randReader = Except.error (GoErr.msg "unexpected EOF") ∧
    noEntropyRuntime.protoMarshal { StanzaId := some "ABC123" } = Except.ok samplePlaintext ∧
    encryptMediaRetryReceipt noEntropyRuntime "ABC123" zeroKey
      = Outcome.panicked (GoErr.msg "unexpected EOF") :=
  ⟨rfl, rfl,
    (encrypt_entropy_failure noEntropyRuntime "ABC123" zeroKey (GoErr.msg "unexpected EOF")
      rfl).1 samplePlaintext rfl⟩

/-- C7 as stated fails: with a failing randomness source and a receipt that serializes,
`encryptMediaRetryReceipt` returns nothing to its caller, in particular no error value. -/
theorem entropy_failure_is_not_returned :
    noEntropyRuntime.randReader = Except.error (GoErr.msg "unexpected EOF") ∧
    ¬ ∃ v, encryptMediaRetryReceipt noEntropyRuntime "ABC123" zeroKey = Outcome.returned v := by
  refine ⟨rfl, ?_⟩
  rw [encrypt_rand_error noEntropyRuntime "ABC123" zeroKey samplePlaintext
    (GoErr.msg "unexpected EOF") rfl rfl]
  simp

/-! ## Sending retry receipts -/

/-- A panic of the encryption is a panic of the send, and nothing is written. -/
theorem send_of_encrypt_panicked (rt : Runtime) (cli : Client) (message : MessageInfo)
    (mediaKey : Bytes) (cause : GoErr)
    (h : encryptMediaRetryReceipt rt message.ID mediaKey = Outcome.panicked cause) :
    cli.SendMediaRetryReceipt rt message mediaKey = (Outcome.panicked cause, cli) := by
  simp [Client.SendMediaRetryReceipt, h]

/-- An error of the encryption is returned wrapped, and nothing is written. -/
theorem send_of_encrypt_error (rt : Runtime) (cli : Client) (message : MessageInfo)
    (mediaKey ct iv : Bytes) (err : GoErr)
    (h : encryptMediaRetryReceipt rt message.ID mediaKey = Outcome.returned (ct, iv, some err)) :
    cli.SendMediaRetryReceipt rt message mediaKey =
      (Outcome.returned
        (some (GoErr.wrap "failed to prepare encrypted retry receipt" err)), cli) := by
  simp [Client.SendMediaRetryReceipt, h, Errorf]

/-- After a successful encryption the receipt node is written once, and the result is the
transport's. -/
theorem send_of_encrypt_ok (rt : Runtime) (cli : Client) (message : MessageInfo)
    (mediaKey ct iv : Bytes)
    (h : encryptMediaRetryReceipt rt message.ID mediaKey = Outcome.returned (ct, iv, none)) :
    cli.SendMediaRetryReceipt rt message mediaKey =
      (Outcome.returned (cli.transport (receiptNodeOf cli message ct iv)),
        { cli with sent := cli.sent ++ [receiptNodeOf cli message ct iv] }) := by
  simp only [Client.SendMediaRetryReceipt, h, Client.sendNode]
  split <;> simp_all [receiptNodeOf, rmrAttrsOf]

/-- The `rmr` child of the receipt node. -/
theorem receiptNodeOf_rmr (cli : Client) (message : MessageInfo) (ct iv : Bytes) :
    (receiptNodeOf cli message ct iv).GetOptionalChildByTag ["rmr"] =
      ({ Tag := "rmr", Attrs := rmrAttrsOf message, Content := Content.empty }, true) := by
  simp [receiptNodeOf, Node.GetOptionalChildByTag, Node.GetChildren]

/-- The `enc_p` and `enc_iv` descendants of the receipt node hold the ciphertext and the IV. -/
theorem receiptNodeOf_enc (cli : Client) (message : MessageInfo) (ct iv : Bytes) :
    ((receiptNodeOf cli message ct iv).GetChildByTag ["encrypt", "enc_p"]).Content
        = Content.bytes ct ∧
      ((receiptNodeOf cli message ct iv).GetChildByTag ["encrypt", "enc_iv"]).Content
        = Content.bytes iv := by
  simp [receiptNodeOf, Node.GetChildByTag, Node.GetOptionalChildByTag, Node.GetChildren]

/-- The attributes of the `rmr` node. -/
theorem rmrAttrsOf_get (message : MessageInfo) :
    (rmrAttrsOf message).get "participant"
        = (if message.IsGroup then some (AttrValue.jid message.Sender) else none) ∧
      (rmrAttrsOf message).get "jid" = some (AttrValue.jid message.Chat) ∧
      (rmrAttrsOf message).get "from_me" = some (AttrValue.bool message.IsFromMe) := by
  cases h : message.IsGroup <;> simp [rmrAttrsOf, h, Attrs.get, Attrs.set]

/-- A send leaves the client as it was, or writes exactly the receipt of a successful
encryption. -/
theorem send_sent_cases (rt : Runtime) (cli : Client) (message : MessageInfo)
    (mediaKey : Bytes) :
    (cli.SendMediaRetryReceipt rt message mediaKey).2 = cli ∨
      ∃ ct iv,
        encryptMediaRetryReceipt rt message.ID mediaKey = Outcome.returned (ct, iv, none) ∧
        (cli.SendMediaRetryReceipt rt message mediaKey).2.sent
          = cli.sent ++ [receiptNodeOf cli message ct iv] := by
  cases h : encryptMediaRetryReceipt rt message.ID mediaKey with
  | panicked cause => left; rw [send_of_encrypt_panicked rt cli message mediaKey cause h]
  | returned v =>
    obtain ⟨ct, iv, err⟩ := v
    cases err with
    | some e => left; rw [send_of_encrypt_error rt cli message mediaKey ct iv e h]
    | none =>
      right
      exact ⟨ct, iv, rfl, by rw [send_of_encrypt_ok rt cli message mediaKey ct iv h]⟩

/-- C5: whenever `SendMediaRetryReceipt` reaches the transport write, it writes one receipt
whose `rmr` node has a `participant` attribute if and only if the message is a group
message, with the sender as its value; its `jid` is the chat and its `from_me` is the
message's `IsFromMe` in both cases. -/
theorem send_rmr_participant (rt : Runtime) (cli : Client) (message : MessageInfo)
    (mediaKey : Bytes)
    (hsent : (cli.SendMediaRetryReceipt rt message mediaKey).2.sent ≠ cli.sent) :
    ∃ node rmr,
      (cli.SendMediaRetryReceipt rt message mediaKey).2.sent = cli.sent ++ [node] ∧
      node.GetOptionalChildByTag ["rmr"] = (rmr, true) ∧
      ((rmr.Attrs.get "participant").isSome = message.IsGroup) ∧
      (message.IsGroup = true →
        rmr.Attrs.get "participant" = some (AttrValue.jid message.Sender)) ∧
      rmr.Attrs.get "jid" = some (AttrValue.jid message.Chat) ∧
      rmr.Attrs.get "from_me" = some (AttrValue.bool message.IsFromMe) := by
  rcases send_sent_cases rt cli message mediaKey with h | ⟨ct, iv, _, h⟩
  · exact absurd (by rw [h]) hsent
  · obtain ⟨hp, hj, hf⟩ := rmrAttrsOf_get message
    refine ⟨_, _, h, receiptNodeOf_rmr cli message ct iv, ?_, ?_, hj, hf⟩
    · cases hg : message.IsGroup <;> simp [hp, hg]
    · intro hg; simp [hp, hg]

/-- The receipt for a group message is written and carries the participant; the receipt for
a message of a direct chat is written and carries none. -/
theorem send_rmr_participant_witness :
    ((freshClient.SendMediaRetryReceipt goodRuntime groupMessage zeroKey).2.sent
      ≠ freshClient.sent ∧
    ∃ node rmr,
      (freshClient.SendMediaRetryReceipt goodRuntime groupMessage zeroKey).2.sent
        = freshClient.sent ++ [node] ∧
      node.GetOptionalChildByTag ["rmr"] = (rmr, true) ∧
      ((rmr.Attrs.get "participant").isSome = groupMessage.IsGroup) ∧
      (groupMessage.IsGroup = true →
        rmr.Attrs.get "participant" = some (AttrValue.jid groupMessage.Sender)) ∧
      rmr.Attrs.get "jid" = some (AttrValue.jid groupMessage.Chat) ∧
      rmr.Attrs.get "from_me" = some (AttrValue.bool groupMessage.IsFromMe)) ∧
    ((freshClient.SendMediaRetryReceipt goodRuntime directMessage zeroKey).2.sent
      ≠ freshClient.sent ∧
    ∃ node rmr,
      (freshClient.SendMediaRetryReceipt goodRuntime directMessage zeroKey).2.sent
        = freshClient.sent ++ [node] ∧
      node.GetOptionalChildByTag ["rmr"] = (rmr, true) ∧
      ((rmr.Attrs.get "participant").isSome = directMessage.IsGroup) ∧
      (directMessage.IsGroup = true →
        rmr.Attrs.get "participant" = some (AttrValue.jid directMessage.Sender)) ∧
      rmr.Attrs.get "jid" = some (AttrValue.jid directMessage.Chat) ∧
      rmr.Attrs.get "from_me" = some (AttrValue.bool directMessage.IsFromMe)) :=
  have h1 : (freshClient.SendMediaRetryReceipt goodRuntime groupMessage zeroKey).2.sent
      ≠ freshClient.sent := by
    rw [send_of_encrypt_ok goodRuntime freshClient groupMessage zeroKey sampleCiphertext
      sampleIV encrypt_sample]
    simp [freshClient]
  have h2 : (freshClient.SendMediaRetryReceipt goodRuntime directMessage zeroKey).2.sent
      ≠ freshClient.sent := by
    rw [send_of_encrypt_ok goodRuntime freshClient directMessage zeroKey sampleCiphertext
      sampleIV encrypt_sample]
    simp [freshClient]
  ⟨⟨h1, send_rmr_participant goodRuntime freshClient groupMessage zeroKey h1⟩,
    ⟨h2, send_rmr_participant goodRuntime freshClient directMessage zeroKey h2⟩⟩

/-- C6: no partial send. If `encryptMediaRetryReceipt` fails, `SendMediaRetryReceipt` returns
an error and never calls `sendNode`; if it panics, so does the send, again without a call;
and in every case `sendNode` is called either not at all or exactly once, with a node that
carries both the ciphertext (`enc_p`) and the IV (`enc_iv`) of the one successful
encryption. -/
theorem send_all_or_nothing (rt : Runtime) (cli : Client) (message : MessageInfo)
    (mediaKey : Bytes) :
    (∀ ct iv err,
      encryptMediaRetryReceipt rt message.ID mediaKey = Outcome.returned (ct, iv, some err) →
      (∃ e, (cli.SendMediaRetryReceipt rt message mediaKey).1 = Outcome.returned (some e)) ∧
        (cli.SendMediaRetryReceipt rt message mediaKey).2.sent = cli.sent) ∧
    (∀ cause, encryptMediaRetryReceipt rt message.ID mediaKey = Outcome.panicked cause →
      (cli.SendMediaRetryReceipt rt message mediaKey).1 = Outcome.panicked cause ∧
        (cli.SendMediaRetryReceipt rt message mediaKey).2.sent = cli.sent) ∧
    ((cli.SendMediaRetryReceipt rt message mediaKey).2.sent = cli.sent ∨
      ∃ ct iv node,
        encryptMediaRetryReceipt rt message.ID mediaKey = Outcome.returned (ct, iv, none) ∧
        (cli.SendMediaRetryReceipt rt message mediaKey).2.sent = cli.sent ++ [node] ∧
        (node.GetChildByTag ["encrypt", "enc_p"]).Content = Content.bytes ct ∧
        (node.GetChildByTag ["encrypt", "enc_iv"]).Content = Content.bytes iv) := by
  refine ⟨?_, ?_, ?_⟩
  · intro ct iv err h
    rw [send_of_encrypt_error rt cli message mediaKey ct iv err h]
    exact ⟨⟨_, rfl⟩, rfl⟩
  · intro cause h
    rw [send_of_encrypt_panicked rt cli message mediaKey cause h]
    exact ⟨rfl, rfl⟩
  · rcases send_sent_cases rt cli message mediaKey with h | ⟨ct, iv, he, h⟩
    · left; rw [h]
    · right
      exact ⟨ct, iv, _, he, h, (receiptNodeOf_enc cli message ct iv).1,
        (receiptNodeOf_enc cli message ct iv).2⟩

/-- With a failing serializer the send returns an error and writes nothing. -/
theorem send_all_or_nothing_witness :
    encryptMediaRetryReceipt noMarshalRuntime directMessage.ID zeroKey
      = Outcome.returned ([], [], some (GoErr.wrap "failed to marshal payload"
          (GoErr.msg "proto: size mismatch"))) ∧
    (∃ e, (freshClient.SendMediaRetryReceipt noMarshalRuntime directMessage zeroKey).1
      = Outcome.returned (some e)) ∧
    (freshClient.SendMediaRetryReceipt noMarshalRuntime directMessage zeroKey).2.sent
      = freshClient.sent :=
  ⟨by decide,
    (send_all_or_nothing noMarshalRuntime freshClient directMessage zeroKey).1 [] []
      (GoErr.wrap "failed to marshal payload" (GoErr.msg "proto: size mismatch")) (by decide)⟩

/-! ## Decrypting retry notifications -/

/-- An IV that is not 12 bytes long makes `DecryptMediaRetryNotification` panic. -/
theorem decrypt_wrong_iv_length (rt : Runtime) (evt : MediaRetry) (mediaKey : Bytes)
    (h : evt.IV.length ≠ 12) :
    DecryptMediaRetryNotification rt evt mediaKey =
      Outcome.panicked (GoErr.msg "crypto/cipher: incorrect nonce length given to GCM") := by
  simp [DecryptMediaRetryNotification, prepareMediaRetryGCM_ok, AEAD.Open, gcmNonceSize, h]

/-- C8 fails on an IV that is not 12 bytes long. The notification `shortIVNotification`
is well-formed and parses into `shortIVEvent`, whose IV has 11 bytes. On that event
`DecryptMediaRetryNotification` does not return an error value: the call to `gcm.Open`
panics, and so does the function. -/
theorem decrypt_short_iv_panics :
    parseMediaRetryNotification shortIVNotification = (some shortIVEvent, none) ∧
    shortIVEvent.IV.length = 11 ∧
    DecryptMediaRetryNotification goodRuntime shortIVEvent zeroKey =
      Outcome.panicked (GoErr.msg "crypto/cipher: incorrect nonce length given to GCM") ∧
    ¬ ∃ v, DecryptMediaRetryNotification goodRuntime shortIVEvent zeroKey
      = Outcome.returned v := by
  have h : shortIVEvent.IV.length ≠ 12 := by decide
  refine ⟨by decide, by decide, decrypt_wrong_iv_length goodRuntime shortIVEvent zeroKey h, ?_⟩
  rw [decrypt_wrong_iv_length goodRuntime shortIVEvent zeroKey h]
  simp

/-- With a 12-byte nonce `Open` always returns. -/
theorem open_never_panics_of_nonce_length (g : AEAD) (nonce ciphertext data : Bytes)
    (h : nonce.length = 12) :
    ∃ r, g.Open [] nonce ciphertext data = Outcome.returned r := by
  unfold AEAD.Open
  rw [if_neg (by simp [gcmNonceSize, h])]
  split
  · exact ⟨_, rfl⟩
  · split
    · exact ⟨_, rfl⟩
    · simp only []
      split
      · exact ⟨_, rfl⟩
      · exact ⟨_, rfl⟩

/-- With an IV of 12 bytes `DecryptMediaRetryNotification` always returns a value to its
caller. It returns no notification and an error when `gcm.Open` does not authenticate or
when the plaintext does not decode, and a notification with no error exactly when the open
succeeded and the plaintext decoded. -/
theorem decrypt_returns_of_iv_length (rt : Runtime) (evt : MediaRetry) (mediaKey : Bytes)
    (h : evt.IV.length = 12) :
    ∃ gcm, prepareMediaRetryGCM mediaKey = Except.ok gcm ∧
      ((∃ err,
          gcm.Open [] evt.IV evt.Ciphertext (stringBytes evt.MessageID)
            = Outcome.returned (Except.error err) ∧
          DecryptMediaRetryNotification rt evt mediaKey = Outcome.returned
            (none, some (GoErr.wrap "failed to decrypt notification" err))) ∨
        (∃ plaintext err,
          gcm.Open [] evt.IV evt.Ciphertext (stringBytes evt.MessageID)
            = Outcome.returned (Except.ok plaintext) ∧
          rt.protoUnmarshal plaintext = Except.error err ∧
          DecryptMediaRetryNotification rt evt mediaKey = Outcome.returned
            (none, some (GoErr.wrap
              "failed to unmarshal notification (invalid encryption key?)" err))) ∨
        (∃ plaintext notif,
          gcm.Open [] evt.IV evt.Ciphertext (stringBytes evt.MessageID)
            = Outcome.returned (Except.ok plaintext) ∧
          rt.protoUnmarshal plaintext = Except.ok notif ∧
          DecryptMediaRetryNotification rt evt mediaKey
            = Outcome.returned (some notif, none))) := by
  refine ⟨_, prepareMediaRetryGCM_ok mediaKey, ?_⟩
  obtain ⟨r, hr⟩ := open_never_panics_of_nonce_length ⟨⟨getMediaRetryKey mediaKey⟩⟩
    evt.IV evt.Ciphertext (stringBytes evt.MessageID) h
  cases r with
  | error err =>
    left
    exact ⟨err, hr,
      by simp [DecryptMediaRetryNotification, prepareMediaRetryGCM_ok, hr, Errorf]⟩
  | ok plaintext =>
    right
    cases hu : rt.protoUnmarshal plaintext with
    | error err =>
      left
      exact ⟨plaintext, err, hr, hu,
        by simp [DecryptMediaRetryNotification, prepareMediaRetryGCM_ok, hr, hu, Errorf]⟩
    | ok notif =>
      right
      exact ⟨plaintext, notif, hr, hu,
        by simp [DecryptMediaRetryNotification, prepareMediaRetryGCM_ok, hr, hu]⟩

/-- An event with a 12-byte IV and an empty ciphertext: decryption returns. -/
theorem decrypt_returns_of_iv_length_witness :
    (sampleIV.length = 12) ∧
    ∃ gcm, prepareMediaRetryGCM zeroKey = Except.ok gcm ∧
      ((∃ err,
          gcm.Open [] sampleIV [] (stringBytes "ABC123")
            = Outcome.returned (Except.error err) ∧
          DecryptMediaRetryNotification goodRuntime
              { shortIVEvent with IV := sampleIV, Ciphertext := [] } zeroKey
            = Outcome.returned (none, some (GoErr.wrap "failed to decrypt notification" err))) ∨
        (∃ plaintext err,
          gcm.Open [] sampleIV [] (stringBytes "ABC123")
            = Outcome.returned (Except.ok plaintext) ∧
          goodRuntime.protoUnmarshal plaintext = Except.error err ∧
          DecryptMediaRetryNotification goodRuntime
              { shortIVEvent with IV := sampleIV, Ciphertext := [] } zeroKey
            = Outcome.returned (none, some (GoErr.wrap
              "failed to unmarshal notification (invalid encryption key?)" err))) ∨
        (∃ plaintext notif,
          gcm.Open [] sampleIV [] (stringBytes "ABC123")
            = Outcome.returned (Except.ok plaintext) ∧
          goodRuntime.protoUnmarshal plaintext = Except.ok notif ∧
          DecryptMediaRetryNotification goodRuntime
              { shortIVEvent with IV := sampleIV, Ciphertext := [] } zeroKey
            = Outcome.returned (some notif, none))) :=
  ⟨by decide,
    decrypt_returns_of_iv_length goodRuntime
      { shortIVEvent with IV := sampleIV, Ciphertext := [] } zeroKey (by decide)⟩

/-! ## Parsing retry notifications -/

/-- A node in which a child was found has a list of child nodes as its content. -/
theorem content_nodes_of_find (n c : Node) (f : Node → Bool)
    (h : n.GetChildren.find? f = some c) : ∃ ns, n.Content = Content.nodes ns := by
  unfold Node.GetChildren at h
  cases hc : n.Content with
  | nodes ns => exact ⟨ns, rfl⟩
  | empty => rw [hc] at h; simp at h
  | bytes b => rw [hc] at h; simp at h

/-- A path of one tag that is found: the node has child nodes. -/
theorem content_nodes_of_child (n c : Node) (tag : String)
    (h : n.GetOptionalChildByTag [tag] = (c, true)) : ∃ ns, n.Content = Content.nodes ns := by
  unfold Node.GetOptionalChildByTag at h
  split at h
  · rename_i child hf
    exact content_nodes_of_find n child _ hf
  · simp at h

/-- Without a child of that tag, the lookup fails and hands back the node itself. -/
theorem GetOptionalChildByTag_no_child (n : Node) (tag : String)
    (h : ∀ c ∈ n.GetChildren, c.Tag ≠ tag) :
    n.GetOptionalChildByTag [tag] = (n, false) := by
  have hf : (n.GetChildren.find? fun c => c.Tag == tag) = none := by
    rw [List.find?_eq_none]
    intro c hc
    simpa using h c hc
  simp [Node.GetOptionalChildByTag, hf]

/-- The node that `GetChildByTag` hands back for a path of two tags holds no raw bytes when
the receiver has child nodes, its first child with the first tag (if any) holds no raw bytes,
and the descendant (if found) holds no raw bytes. -/
theorem GetChildByTag_no_bytes (n : Node) (t1 t2 : String)
    (hn : ∃ ns, n.Content = Content.nodes ns)
    (h1 : ∀ e, n.GetOptionalChildByTag [t1] = (e, true) → ∀ b, e.Content ≠ Content.bytes b)
    (h2 : ∀ p, n.GetOptionalChildByTag [t1, t2] = (p, true) →
      ∀ b, p.Content ≠ Content.bytes b) :
    ∀ b, (n.GetChildByTag [t1, t2]).Content ≠ Content.bytes b := by
  intro b
  simp only [Node.GetChildByTag, Node.GetOptionalChildByTag] at h1 h2 ⊢
  cases hf : (n.GetChildren.find? fun c => c.Tag == t1) with
  | none =>
    obtain ⟨ns, hns⟩ := hn
    simp [hns]
  | some e =>
    rw [hf] at h1 h2
    simp only [] at h1 h2 ⊢
    cases hg : (e.GetChildren.find? fun c => c.Tag == t2) with
    | none => simpa using h1 e rfl b
    | some q =>
      rw [hg] at h2
      simpa using h2 q rfl b

/-- Reading well-formed `t` and `id` attributes records no failure. -/
theorem parse_top_attrs (node : Node) (t : String) (sec : Int) (id : String)
    (ht : node.Attrs.get "t" = some (AttrValue.str t)) (hsec : parseInt64 t = some sec)
    (hid : node.Attrs.get "id" = some (AttrValue.str id)) :
    (node.AttrGetter.Int64 "t") = (sec, node.AttrGetter) ∧
      (node.AttrGetter.String "id") = (id, node.AttrGetter) ∧ node.AttrGetter.OK = true := by
  simp [Node.AttrGetter, AttrUtility.Int64, AttrUtility.String, AttrUtility.OK, ht, hsec, hid]

/-- Reading well-formed `rmr` attributes records no failure. -/
theorem parse_rmr_attrs (rmr : Node) (chat : JID) (fm : String) (fromMe : Bool)
    (participant : Option JID)
    (hjid : rmr.Attrs.get "jid" = some (AttrValue.jid chat))
    (hfm : rmr.Attrs.get "from_me" = some (AttrValue.str fm)) (hb : parseBool fm = some fromMe)
    (hpart : rmr.Attrs.get "participant" = participant.map AttrValue.jid) :
    (rmr.AttrGetter.JID "jid") = (chat, rmr.AttrGetter) ∧
      (rmr.AttrGetter.Bool "from_me") = (fromMe, rmr.AttrGetter) ∧
      (rmr.AttrGetter.OptionalJIDOrEmpty "participant")
        = (participant.getD EmptyJID, rmr.AttrGetter) := by
  cases participant <;>
    simp [Node.AttrGetter, AttrUtility.JID, AttrUtility.Bool, AttrUtility.OptionalJIDOrEmpty,
      hjid, hfm, hb, hpart]

/-- C2: a notification whose attributes `t` (a decimal integer) and `id` (a string) are
present and well-formed, and which has no child tagged `rmr`, is rejected: the parser
returns no event and an `ElementMissingError` whose tag is `rmr`. -/
theorem parse_without_rmr (node : Node) (t : String) (sec : Int) (id : String)
    (ht : node.Attrs.get "t" = some (AttrValue.str t)) (hsec : parseInt64 t = some sec)
    (hid : node.Attrs.get "id" = some (AttrValue.str id))
    (hrmr : ∀ c ∈ node.GetChildren, c.Tag ≠ "rmr") :
    parseMediaRetryNotification node =
      (none, some (GoErr.elementMissing { Tag := "rmr", In := "retry notification" })) := by
  obtain ⟨h1, h2, h3⟩ := parse_top_attrs node t sec id ht hsec hid
  simp [parseMediaRetryNotification, h1, h2, h3, GetOptionalChildByTag_no_child node "rmr" hrmr]

/-- The notification without `rmr` is rejected with the tag `rmr`. -/
theorem parse_without_rmr_witness :
    notificationWithoutRmr.Attrs.get "t" = some (AttrValue.str "1650000000") ∧
    parseInt64 "1650000000" = some 1650000000 ∧
    notificationWithoutRmr.Attrs.get "id" = some (AttrValue.str "ABC123") ∧
    (∀ c ∈ notificationWithoutRmr.GetChildren, c.Tag ≠ "rmr") ∧
    parseMediaRetryNotification notificationWithoutRmr =
      (none, some (GoErr.elementMissing { Tag := "rmr", In := "retry notification" })) :=
  have h : ∀ c ∈ notificationWithoutRmr.GetChildren, c.Tag ≠ "rmr" := by decide
  ⟨by decide, by decide, by decide, h,
    parse_without_rmr notificationWithoutRmr "1650000000" 1650000000 "ABC123"
      (by decide) (by decide) (by decide) h⟩

/-- C3 fails when the `encrypt` child holds raw bytes itself. In `notificationWithEncryptBytes`
the top-level attributes and the `rmr` child are valid and `encrypt` has no child tagged
`enc_p`, so the descendant `encrypt` -> `enc_p` is absent; yet the parser returns no
`ElementMissingError`: `GetChildByTag` hands back the `encrypt` node, whose bytes become
both the ciphertext and the IV of a returned event. -/
theorem parse_accepts_encrypt_bytes :
    notificationWithEncryptBytes.GetOptionalChildByTag ["rmr"] = (rmrNode, true) ∧
    (notificationWithEncryptBytes.GetOptionalChildByTag ["encrypt", "enc_p"]).2 = false ∧
    (∀ e ∈ notificationWithEncryptBytes.GetChildren, ∀ c ∈ e.GetChildren, c.Tag ≠ "enc_p") ∧
    parseMediaRetryNotification notificationWithEncryptBytes =
      (some
        { Ciphertext := [7, 8, 9]
          IV := [7, 8, 9]
          Timestamp := timeUnix 1650000000 0
          MessageID := "ABC123"
          ChatID := aliceJID
          SenderID := EmptyJID
          FromMe := true }, none) :=
  ⟨rfl, by decide, by decide, by decide⟩

/-- The part of C3 that holds: when the top-level attributes and the `rmr` child are valid,
the `encrypt` child (if there is one) does not hold raw bytes itself, and the descendant
`encrypt` -> `enc_p` is absent or its content is not raw bytes, the parser returns no event
and an `ElementMissingError` whose tag is `enc_p` and whose context label ends with the
message identifier. -/
theorem parse_without_enc_p (node rmr : Node) (t : String) (sec : Int) (id : String)
    (chat : JID) (fm : String) (fromMe : Bool) (participant : Option JID)
    (ht : node.Attrs.get "t" = some (AttrValue.str t)) (hsec : parseInt64 t = some sec)
    (hid : node.Attrs.get "id" = some (AttrValue.str id))
    (hrmr : node.GetOptionalChildByTag ["rmr"] = (rmr, true))
    (hjid : rmr.Attrs.get "jid" = some (AttrValue.jid chat))
    (hfm : rmr.Attrs.get "from_me" = some (AttrValue.str fm)) (hb : parseBool fm = some fromMe)
    (hpart : rmr.Attrs.get "participant" = participant.map AttrValue.jid)
    (hencrypt : ∀ e, node.GetOptionalChildByTag ["encrypt"] = (e, true) →
      ∀ b, e.Content ≠ Content.bytes b)
    (henc : ∀ p, node.GetOptionalChildByTag ["encrypt", "enc_p"] = (p, true) →
      ∀ b, p.Content ≠ Content.bytes b) :
    parseMediaRetryNotification node =
      (none, some (GoErr.elementMissing
        { Tag := "enc_p", In := "retry notification " ++ id })) := by
  obtain ⟨h1, h2, h3⟩ := parse_top_attrs node t sec id ht hsec hid
  obtain ⟨h4, h5, h6⟩ := parse_rmr_attrs rmr chat fm fromMe participant hjid hfm hb hpart
  have hc := GetChildByTag_no_bytes node "encrypt" "enc_p"
    (content_nodes_of_child node rmr "rmr" hrmr) hencrypt henc
  have hok : rmr.AttrGetter.OK = true := by simp [Node.AttrGetter, AttrUtility.OK]
  simp only [parseMediaRetryNotification, h1, h2, h3, hrmr, h4, h5, h6, hok]
  cases hcont : (node.GetChildByTag ["encrypt", "enc_p"]).Content with
  | bytes b => exact absurd hcont (hc b)
  | empty => simp
  | nodes ns => simp

/-- The notification without `encrypt`, and the one whose `enc_p` holds child nodes, are both
rejected with the tag `enc_p`. -/
theorem parse_without_enc_p_witness :
    (notificationWithoutEncrypt.GetOptionalChildByTag ["encrypt", "enc_p"]).2 = false ∧
    parseMediaRetryNotification notificationWithoutEncrypt =
      (none, some (GoErr.elementMissing
        { Tag := "enc_p", In := "retry notification " ++ "ABC123" })) ∧
    (notificationWithNestedEncP.GetOptionalChildByTag ["encrypt", "enc_p"])
      = ({ Tag := "enc_p", Attrs := [], Content := Content.nodes [] }, true) ∧
    parseMediaRetryNotification notificationWithNestedEncP =
      (none, some (GoErr.elementMissing
        { Tag := "enc_p", In := "retry notification " ++ "ABC123" })) :=
  have a1 : ∀ e, notificationWithoutEncrypt.GetOptionalChildByTag ["encrypt"] = (e, true) →
      ∀ b, e.Content ≠ Content.bytes b := by
    intro e he
    have h : (notificationWithoutEncrypt.GetOptionalChildByTag ["encrypt"]).2 = false := by
      decide
    rw [he] at h
    exact absurd h (by simp)
  have h1 : ∀ p, notificationWithoutEncrypt.GetOptionalChildByTag ["encrypt", "enc_p"]
      = (p, true) → ∀ b, p.Content ≠ Content.bytes b := by
    intro p hp
    have h : (notificationWithoutEncrypt.GetOptionalChildByTag ["encrypt", "enc_p"]).2
        = false := by decide
    rw [hp] at h
    exact absurd h (by simp)
  have a2 : ∀ e, notificationWithNestedEncP.GetOptionalChildByTag ["encrypt"] = (e, true) →
      ∀ b, e.Content ≠ Content.bytes b := by
    intro e he b hb
    have h : ∃ ns, (notificationWithNestedEncP.GetOptionalChildByTag ["encrypt"]).1.Content
        = Content.nodes ns := ⟨_, rfl⟩
    obtain ⟨ns, h⟩ := h
    rw [he] at h
    rw [h] at hb
    cases hb
  have h2 : ∀ p, notificationWithNestedEncP.GetOptionalChildByTag ["encrypt", "enc_p"]
      = (p, true) → ∀ b, p.Content ≠ Content.bytes b := by
    intro p hp b hb
    have h : (notificationWithNestedEncP.GetOptionalChildByTag ["encrypt", "enc_p"]).1.Content
        = Content.nodes [] := rfl
    rw [hp] at h
    rw [h] at hb
    cases hb
  ⟨by decide,
    parse_without_enc_p notificationWithoutEncrypt rmrNode "1650000000" 1650000000 "ABC123"
      aliceJID "true" true none (by decide) (by decide) (by decide) rfl (by decide) (by decide)
      (by decide) (by decide) a1 h1,
    rfl,
    parse_without_enc_p notificationWithNestedEncP rmrNode "1650000000" 1650000000 "ABC123"
      aliceJID "true" true none (by decide) (by decide) (by decide) rfl (by decide) (by decide)
      (by decide) (by decide) a2 h2⟩

/-- C4: a notification with attributes `t` and `id`, a child `rmr` with `jid` and `from_me`
(with or without `participant`) and a child `encrypt` holding raw-byte children `enc_p` and
`enc_iv` parses without error into the event with all seven fields populated from the node;
the sender is the `participant` when present and the empty identifier otherwise, so the
absence of `participant` never fails the parse. -/
theorem parse_well_formed (node rmr encP encIV : Node) (t : String) (sec : Int) (id : String)
    (chat : JID) (fm : String) (fromMe : Bool) (participant : Option JID)
    (ciphertext iv : Bytes)
    (ht : node.Attrs.get "t" = some (AttrValue.str t)) (hsec : parseInt64 t = some sec)
    (hid : node.Attrs.get "id" = some (AttrValue.str id))
    (hrmr : node.GetOptionalChildByTag ["rmr"] = (rmr, true))
    (hjid : rmr.Attrs.get "jid" = some (AttrValue.jid chat))
    (hfm : rmr.Attrs.get "from_me" = some (AttrValue.str fm)) (hb : parseBool fm = some fromMe)
    (hpart : rmr.Attrs.get "participant" = participant.map AttrValue.jid)
    (hp : node.GetOptionalChildByTag ["encrypt", "enc_p"] = (encP, true))
    (hpc : encP.Content = Content.bytes ciphertext)
    (hiv : node.GetOptionalChildByTag ["encrypt", "enc_iv"] = (encIV, true))
    (hivc : encIV.Content = Content.bytes iv) :
    parseMediaRetryNotification node =
      (some
        { Ciphertext := ciphertext
          IV := iv
          Timestamp := timeUnix sec 0
          MessageID := id
          ChatID := chat
          SenderID := participant.getD EmptyJID
          FromMe := fromMe }, none) := by
  obtain ⟨h1, h2, h3⟩ := parse_top_attrs node t sec id ht hsec hid
  obtain ⟨h4, h5, h6⟩ := parse_rmr_attrs rmr chat fm fromMe participant hjid hfm hb hpart
  have hok : rmr.AttrGetter.OK = true := by simp [Node.AttrGetter, AttrUtility.OK]
  simp [parseMediaRetryNotification, h1, h2, h3, hrmr, h4, h5, h6, hok, Node.GetChildByTag,
    hp, hpc, hiv, hivc, MediaRetry.zero]

/-- The well-formed notification without participant parses, with an empty sender; the one
with a participant parses, with the participant as sender. -/
theorem parse_well_formed_witness :
    rmrNode.Attrs.get "participant" = none ∧
    parseMediaRetryNotification goodNotification =
      (some
        { Ciphertext := [1, 2, 3]
          IV := [4, 5, 6]
          Timestamp := timeUnix 1650000000 0
          MessageID := "ABC123"
          ChatID := aliceJID
          SenderID := EmptyJID
          FromMe := true }, none) ∧
    groupRmrNode.Attrs.get "participant" = some (AttrValue.jid aliceJID) ∧
    parseMediaRetryNotification groupNotification =
      (some
        { Ciphertext := [1, 2, 3]
          IV := [4, 5, 6]
          Timestamp := timeUnix 1650000000 0
          MessageID := "ABC123"
          ChatID := groupJID
          SenderID := aliceJID
          FromMe := false }, none) :=
  ⟨by decide,
    parse_well_formed goodNotification rmrNode
      { Tag := "enc_p", Attrs := [], Content := Content.bytes [1, 2, 3] }
      { Tag := "enc_iv", Attrs := [], Content := Content.bytes [4, 5, 6] }
      "1650000000" 1650000000 "ABC123" aliceJID "true" true none [1, 2, 3] [4, 5, 6]
      (by decide) (by decide) (by decide) rfl (by decide) (by decide) (by decide) (by decide)
      rfl rfl rfl rfl,
    by decide,
    parse_well_formed groupNotification groupRmrNode
      { Tag := "enc_p", Attrs := [], Content := Content.bytes [1, 2, 3] }
      { Tag := "enc_iv", Attrs := [], Content := Content.bytes [4, 5, 6] }
      "1650000000" 1650000000 "ABC123" groupJID "false" false (some aliceJID) [1, 2, 3] [4, 5, 6]
      (by decide) (by decide) (by decide) rfl (by decide) (by decide) (by decide) (by decide)
      rfl rfl rfl rfl⟩

/-! ## Dispatching parsed notifications -/

/-- Every return of the parser is an event without error, or an error without event. -/
theorem parse_result_shape (node : Node) :
    (∃ evt, parseMediaRetryNotification node = (some evt, none)) ∨
      (∃ err, parseMediaRetryNotification node = (none, some err)) := by
  unfold parseMediaRetryNotification
  simp only []
  split
  · right
    rename_i h
    simp only [AttrUtility.OK, AttrUtility.Error] at h ⊢
    cases he : ((node.AttrGetter.Int64 "t").2.String "id").2.Err with
    | none => simp [he] at h
    | some e => exact ⟨e, rfl⟩
  · split
    · exact Or.inr ⟨_, rfl⟩
    · split
      · exact Or.inr ⟨_, rfl⟩
      · split
        · split
          · exact Or.inl ⟨_, rfl⟩
          · exact Or.inr ⟨_, rfl⟩
        · exact Or.inr ⟨_, rfl⟩

/-- C10: atomic parse and drop on failure. The parser returns either an event and no error,
or no event and an error, never both and never neither; the handler dispatches exactly that
one event when the parse succeeds, and dispatches nothing (it only logs a warning) when the
parse fails. -/
theorem parse_atomic_and_handle (cli : Client) (node : Node) :
    ((∃ evt, parseMediaRetryNotification node = (some evt, none)) ∨
      (∃ err, parseMediaRetryNotification node = (none, some err))) ∧
    (∀ evt, parseMediaRetryNotification node = (some evt, none) →
      (cli.handleMediaRetryNotification node).dispatched = cli.dispatched ++ [some evt] ∧
      (cli.handleMediaRetryNotification node).warnings = cli.warnings) ∧
    (∀ evt err, parseMediaRetryNotification node = (evt, some err) →
      (cli.handleMediaRetryNotification node).dispatched = cli.dispatched ∧
      (cli.handleMediaRetryNotification node).warnings = cli.warnings ++
        [GoErr.wrap "Failed to parse media retry notification" err]) := by
  refine ⟨parse_result_shape node, ?_, ?_⟩
  · intro evt h
    simp [Client.handleMediaRetryNotification, h, Client.dispatchEvent]
  · intro evt err h
    simp [Client.handleMediaRetryNotification, h, Client.Warnf]

/-- One dispatch for the well-formed notification, none for the one without `rmr`. -/
theorem parse_atomic_and_handle_witness :
    parseMediaRetryNotification goodNotification =
      (some ⟨[1, 2, 3], [4, 5, 6], ⟨1650000000, 0⟩, "ABC123", aliceJID, EmptyJID, true⟩, none) ∧
    (freshClient.handleMediaRetryNotification goodNotification).dispatched =
      [some ⟨[1, 2, 3], [4, 5, 6], ⟨1650000000, 0⟩, "ABC123", aliceJID, EmptyJID, true⟩] ∧
    parseMediaRetryNotification notificationWithoutRmr =
      (none, some (GoErr.elementMissing { Tag := "rmr", In := "retry notification" })) ∧
    (freshClient.handleMediaRetryNotification notificationWithoutRmr).dispatched = [] :=
  ⟨by decide,
    ((parse_atomic_and_handle freshClient goodNotification).2.1 _ (by decide)).1,
    by decide,
    ((parse_atomic_and_handle freshClient notificationWithoutRmr).2.2 none
      (GoErr.elementMissing { Tag := "rmr", In := "retry notification" }) (by decide)).1⟩

/-- A notification that is valid up to and including `enc_p`, and whose descendant
`encrypt` -> `enc_iv` is absent or does not hold raw bytes, is rejected with an
`ElementMissingError` whose tag is `enc_iv` and whose label ends with the message
identifier. -/
theorem parse_without_enc_iv (node rmr encP : Node) (t : String) (sec : Int) (id : String)
    (chat : JID) (fm : String) (fromMe : Bool) (participant : Option JID) (ciphertext : Bytes)
    (ht : node.Attrs.get "t" = some (AttrValue.str t)) (hsec : parseInt64 t = some sec)
    (hid : node.Attrs.get "id" = some (AttrValue.str id))
    (hrmr : node.GetOptionalChildByTag ["rmr"] = (rmr, true))
    (hjid : rmr.Attrs.get "jid" = some (AttrValue.jid chat))
    (hfm : rmr.Attrs.get "from_me" = some (AttrValue.str fm)) (hb : parseBool fm = some fromMe)
    (hpart : rmr.Attrs.get "participant" = participant.map AttrValue.jid)
    (hp : node.GetOptionalChildByTag ["encrypt", "enc_p"] = (encP, true))
    (hpc : encP.Content = Content.bytes ciphertext)
    (hiv : ∀ p, node.GetOptionalChildByTag ["encrypt", "enc_iv"] = (p, true) →
      ∀ b, p.Content ≠ Content.bytes b) :
    parseMediaRetryNotification node =
      (none, some (GoErr.elementMissing
        { Tag := "enc_iv", In := "retry notification " ++ id })) := by
  obtain ⟨h1, h2, h3⟩ := parse_top_attrs node t sec id ht hsec hid
  obtain ⟨h4, h5, h6⟩ := parse_rmr_attrs rmr chat fm fromMe participant hjid hfm hb hpart
  have henc : ∀ e, node.GetOptionalChildByTag ["encrypt"] = (e, true) →
      ∀ b, e.Content ≠ Content.bytes b := by
    intro e he b hb
    simp only [Node.GetOptionalChildByTag] at he hp
    split at he
    · rename_i child hf
      simp only [Prod.mk.injEq, and_true] at he
      subst he
      rw [hf] at hp
      simp only [] at hp
      split at hp
      · rename_i q hq
        obtain ⟨ns, hns⟩ := content_nodes_of_find child q _ hq
        rw [hns] at hb
        cases hb
      · simp at hp
    · simp at he
  have hc := GetChildByTag_no_bytes node "encrypt" "enc_iv"
    (content_nodes_of_child node rmr "rmr" hrmr) henc hiv
  have hok : rmr.AttrGetter.OK = true := by simp [Node.AttrGetter, AttrUtility.OK]
  have hcp : (node.GetChildByTag ["encrypt", "enc_p"]).Content = Content.bytes ciphertext := by
    simp [Node.GetChildByTag, hp, hpc]
  simp only [parseMediaRetryNotification, h1, h2, h3, hrmr, h4, h5, h6, hok, hcp]
  cases hcont : (node.GetChildByTag ["encrypt", "enc_iv"]).Content with
  | bytes b => exact absurd hcont (hc b)
  | empty => simp
  | nodes ns => simp

/-- The notification without `enc_iv` is rejected with the tag `enc_iv`. -/
theorem parse_without_enc_iv_witness :
    notificationWithoutIV.GetOptionalChildByTag ["encrypt", "enc_p"]
      = ({ Tag := "enc_p", Attrs := [], Content := Content.bytes [1, 2, 3] }, true) ∧
    parseMediaRetryNotification notificationWithoutIV =
      (none, some (GoErr.elementMissing
        { Tag := "enc_iv", In := "retry notification " ++ "ABC123" })) :=
  have h : ∀ p, notificationWithoutIV.GetOptionalChildByTag ["encrypt", "enc_iv"]
      = (p, true) → ∀ b, p.Content ≠ Content.bytes b := by
    intro p hp
    have h2 : (notificationWithoutIV.GetOptionalChildByTag ["encrypt", "enc_iv"]).2
        = false := by decide
    rw [hp] at h2
    exact absurd h2 (by simp)
  ⟨rfl,
    parse_without_enc_iv notificationWithoutIV rmrNode
      { Tag := "enc_p", Attrs := [], Content := Content.bytes [1, 2, 3] }
      "1650000000" 1650000000 "ABC123" aliceJID "true" true none [1, 2, 3]
      (by decide) (by decide) (by decide) rfl (by decide) (by decide) (by decide) (by decide)
      rfl rfl h⟩

end whatsmeow
